import Mathlib

/-
Verification of the image-construction subsystem of Unik (src/pkg/os/utils.go).

The Go code is embedded shallowly: every effectful collaborator call (loop-device
attach, device-mapper mapping, partition-table mutation, partition enumeration,
mkfs/mount/copy/grub-install shell-outs, file creation) takes its result from an
explicit environment value, and each embedded function returns the Go function
result together with a trace of the operations it performed, in order.  Go
runtime panics (out-of-range slice indexing) are a distinct outcome, separate
from returned errors.  Deferred releases are appended on every exit path, in
LIFO order, exactly as Go defer runs them (also on panic).
-/

namespace Unik

/-- Go error values, modelled by their message string. -/
structure GoError where
  msg : String
deriving DecidableEq, Repr

/-- Modelled from the spec: the sector size is a fixed constant of 512 bytes
(spec section 3 and glossary); the concrete constant lives outside src/. -/
def SectorSize : Nat := 512

/-- Modelled from the spec: semantic disk-size values with exact conversion to
bytes (spec section 3, ByteSize); the concrete Bytes/MegaBytes types live
outside src/. -/
inductive DiskSize where
  | bytes (n : Nat)
  | megaBytes (n : Nat)
deriving DecidableEq, Repr

/-- Modelled from the spec: conversions are exact multiplications (spec 4.1). -/
def DiskSize.toBytes : DiskSize → Nat
  | .bytes n => n
  | .megaBytes n => n * 1024 * 1024

/-- Modelled from the spec: convert-to-sectors fails when the byte count is not
an exact multiple of the sector size (spec 4.1, UnrepresentableSize). -/
def ToSectors (d : DiskSize) : Except GoError Nat :=
  if d.toBytes % SectorSize = 0 then .ok (d.toBytes / SectorSize)
  else .error ⟨"size not a multiple of sector size"⟩

/-- A partition as enumerated by ListParts: whether it is device-mapper backed,
its device name, and its committed byte offset and size (utils.go uses the
Offset and Size accessors; the DeviceMapperDevice variant carries a mutable
DeviceName, cf. utils.go lines 92-96). -/
structure Part where
  isDeviceMapper : Bool
  deviceName : String
  offset : Nat
  size : Nat
deriving DecidableEq, Repr

/-- A raw volume description (types.RawVolume): source directory and optional
explicit size, zero meaning derive the size from the directory contents. -/
structure RawVolume where
  Path : String
  Size : Nat
deriving DecidableEq, Repr

/-- The scarce OS resources acquired and released by the assemblers: a loop
device for a backing file, a device-mapper mapping (with its requested extent,
backing device and requested name), an enumerated partition, and a mount. -/
inductive Res where
  | lo (file : String)
  | dm (startSector sizeSectors : Nat) (backing name : String)
  | part (p : Part)
  | mnt (device : String)
deriving DecidableEq, Repr

/-- Observable operations of one assembler run, recorded in program order. -/
inductive Event where
  | createdSparse (filename : String) (sizeBytes : Nat)
  | acquireFailed (r : Res)
  | acquired (r : Res) (handle : String)
  | released (r : Res)
  | madeTable (device : String)
  | madePartTillEnd (ptype : String) (offsetBytes : Nat) (device : String)
  | madePart (ptype : String) (startBytes endBytes : Nat) (device : String)
  | listedParts (device : String)
  | ranMkfs (label : Option String) (device : String)
  | copiedFile (src dst : String)
  | wroteFile (path contents : String)
  | copiedDir (src dst : String)
  | ranGrubInstall (mntPoint device : String)
  | calledCopyToPart (folder : String) (p : Part)
deriving DecidableEq, Repr

/-- Result of an embedded Go function: a returned value, a returned error, or a
runtime panic (Go out-of-range slice indexing has no error return). -/
inductive Outcome (α : Type) where
  | ok (a : α)
  | err (e : GoError)
  | panicked
deriving DecidableEq, Repr

/-- Embeds createSparseFile (utils.go 29-45): the outcome of the underlying
create/seek/write operations is supplied by the environment; the trace records
the size that was requested. -/
def createSparseFile (filename : String) (size : DiskSize)
    (res : Except GoError Unit) : Outcome Unit × List Event :=
  match res with
  | .error e => (.err e, [.createdSparse filename size.toBytes])
  | .ok _ => (.ok (), [.createdSparse filename size.toBytes])

/-- The ProgramName constant (utils.go 27). -/
def ProgramName : String := "program.bin"

/-- The GrubTemplate constant (utils.go 14-22) with its two text/template
fields substituted; text/template is an external collaborator, so rendering is
embedded as string concatenation. -/
def GrubTemplate (rootDrive commandLine : String) : String :=
  "default=0\nfallback=1\ntimeout=1\nhiddenmenu\n\ntitle Unik\nroot " ++ rootDrive ++
    "\nkernel /boot/program.bin " ++ commandLine ++ "\n"

/-- The DeviceMapFile constant (utils.go 24-25) with its field substituted. -/
def DeviceMapFile (grubDevice : String) : String :=
  "(hd0) " ++ grubDevice ++ "\n"

/-- Environment for PrepareGrub: results of the kernel copy and of the three
file creations. -/
structure GrubEnv where
  copyFile : Except GoError Unit
  createMenuLst : Except GoError Unit
  createGrubConf : Except GoError Unit
  createMap : Except GoError Unit
deriving Repr

/-- Embeds writeBootTemplate (utils.go 169-188): file creation failure is
returned; on success the rendered template is written (the Execute error is
discarded by the source). -/
def writeBootTemplate (fname rootDrive commandline : String)
    (createRes : Except GoError Unit) : Outcome Unit × List Event :=
  match createRes with
  | .error e => (.err e, [])
  | .ok _ => (.ok (), [.wroteFile fname (GrubTemplate rootDrive commandline)])

/-- Embeds writeDeviceMap (utils.go 153-168). -/
def writeDeviceMap (fname rootDevice : String)
    (createRes : Except GoError Unit) : Outcome Unit × List Event :=
  match createRes with
  | .error e => (.err e, [])
  | .ok _ => (.ok (), [.wroteFile fname (DeviceMapFile rootDevice)])

/-- Embeds PrepareGrub (utils.go 126-151): copy the kernel to boot/program.bin,
write menu.lst and grub.conf from the grub template with root drive (hd0,0),
and write the device map; the first failure is returned. -/
def PrepareGrub (folder rootDeviceName kernel commandline : String)
    (env : GrubEnv) : Outcome Unit × List Event :=
  let grubPath := folder ++ "/boot/grub"
  let kernelDst := folder ++ "/boot/" ++ ProgramName
  match env.copyFile with
  | .error e => (.err e, [])
  | .ok _ =>
    let tr0 := [Event.copiedFile kernel kernelDst]
    match writeBootTemplate (grubPath ++ "/menu.lst") "(hd0,0)" commandline env.createMenuLst with
    | (Outcome.err e, tr1) => (.err e, tr0 ++ tr1)
    | (_, tr1) =>
      match writeBootTemplate (grubPath ++ "/grub.conf") "(hd0,0)" commandline env.createGrubConf with
      | (Outcome.err e, tr2) => (.err e, tr0 ++ tr1 ++ tr2)
      | (_, tr2) =>
        match writeDeviceMap (grubPath ++ "/map") rootDeviceName env.createMap with
        | (Outcome.err e, tr3) => (.err e, tr0 ++ tr1 ++ tr2 ++ tr3)
        | (_, tr3) => (.ok (), tr0 ++ tr1 ++ tr2 ++ tr3)

/-- The fixed bootloader-friendly disk name (utils.go 72). -/
def grubDiskName : String := "hda"

/-- Environment for CreateBootImageOnFile: the result of every effectful step.
The makeTable, makePartTillEnd and release results are present even though the
source discards them (utils.go 81, 82 and the deferred releases). -/
structure BootEnv where
  loAcquire : Except GoError String
  loRelease : Except GoError Unit
  dmAcquire : Except GoError String
  dmRelease : Except GoError Unit
  makeTable : Except GoError Unit
  makePartTillEnd : Except GoError Unit
  listParts : Except GoError (List Part)
  partAcquire : Except GoError String
  partRelease : Except GoError Unit
  mkfs : Except GoError Unit
  mount : Except GoError String
  umount : Except GoError Unit
  grub : GrubEnv
  grubInstall : Except GoError Unit
deriving Repr

/-- Steps of CreateBootImageOnFile from partition enumeration onward (utils.go
83-123): the trace here excludes the three table events, which the wrapper
prepends.  The PrepareGrub result is discarded by the source (utils.go 117). -/
def bootImagePartitionPhase (rootDevice progPath commandline : String)
    (env : BootEnv) : Outcome Unit × List Event :=
  match env.listParts with
  | .error e => (.err e, [])
  | .ok parts =>
    match parts with
    | [] => (.err ⟨"No parts created"⟩, [])
    | p0 :: _ =>
      let part := if p0.isDeviceMapper then { p0 with deviceName := grubDiskName ++ "1" } else p0
      match env.partAcquire with
      | .error e => (.err e, [.acquireFailed (.part part)])
      | .ok bootDevice =>
        let inner : Outcome Unit × List Event :=
          match env.mkfs with
          | .error e => (.err e, [.ranMkfs (some "boot") bootDevice])
          | .ok _ =>
            match env.mount with
            | .error e => (.err e, [.ranMkfs (some "boot") bootDevice,
                .acquireFailed (.mnt bootDevice)])
            | .ok mntPoint =>
              let grubTr := (PrepareGrub mntPoint rootDevice progPath commandline env.grub).2
              let pre := [Event.ranMkfs (some "boot") bootDevice,
                  Event.acquired (.mnt bootDevice) mntPoint]
                ++ grubTr ++ [Event.ranGrubInstall mntPoint rootDevice]
              match env.grubInstall with
              | .error e => (.err e, pre ++ [.released (.mnt bootDevice)])
              | .ok _ => (.ok (), pre ++ [.released (.mnt bootDevice)])
        (inner.1, Event.acquired (.part part) bootDevice
          :: (inner.2 ++ [.released (.part part)]))

/-- Steps of CreateBootImageOnFile from partition-table creation onward
(utils.go 80-123), on the acquired device-mapper device; the deferred releases
of the two outer resources are appended by the caller.  The MakeTable and
MakePartTillEnd results are discarded by the source (utils.go 81-82). -/
def bootImageAfterAcquire (rootDevice progPath commandline : String)
    (env : BootEnv) : Outcome Unit × List Event :=
  let r := bootImagePartitionPhase rootDevice progPath commandline env
  (r.1, Event.madeTable rootDevice
    :: Event.madePartTillEnd "primary" (DiskSize.megaBytes 2).toBytes rootDevice
    :: Event.listedParts rootDevice :: r.2)

/-- Embeds CreateBootImageOnFile (utils.go 56-124): convert the size to
sectors, attach the loop device, remap it via device-mapper to the fixed name
hda over the whole disk, then partition, format, mount, stage grub and install
it; deferred releases run in LIFO order on every exit path. -/
def CreateBootImageOnFile (rootFile : String) (sizeOfFile : DiskSize)
    (progPath commandline : String) (env : BootEnv) : Outcome Unit × List Event :=
  match ToSectors sizeOfFile with
  | .error e => (.err e, [])
  | .ok sizeInSectors =>
    match env.loAcquire with
    | .error e => (.err e, [.acquireFailed (.lo rootFile)])
    | .ok rootLodName =>
      let rDm : Res := .dm 0 sizeInSectors rootLodName grubDiskName
      match env.dmAcquire with
      | .error e =>
        (.err e, [.acquired (.lo rootFile) rootLodName, .acquireFailed rDm,
          .released (.lo rootFile)])
      | .ok rootDevice =>
        let r := bootImageAfterAcquire rootDevice progPath commandline env
        (r.1, [Event.acquired (.lo rootFile) rootLodName, Event.acquired rDm rootDevice]
          ++ r.2 ++ [Event.released rDm, Event.released (.lo rootFile)])

/-- Environment for CreateBootImageWithSize. -/
structure BootImgEnv where
  createSparse : Except GoError Unit
  boot : BootEnv
deriving Repr

/-- Embeds CreateBootImageWithSize (utils.go 47-54): create the sparse file of
the requested size, then build the boot image on it.  The size is handed to
createSparseFile unmodified. -/
def CreateBootImageWithSize (rootFile progPath commandline : String) (size : DiskSize)
    (env : BootImgEnv) : Outcome Unit × List Event :=
  match createSparseFile rootFile size env.createSparse with
  | (Outcome.err e, tr) => (.err e, tr)
  | (_, tr) =>
    let r := CreateBootImageOnFile rootFile size progPath commandline env.boot
    (r.1, tr ++ r.2)

/-- The fixed ext2 filesystem overhead allowance (utils.go 207, 258, 321). -/
def ext2Overhead : Nat := (DiskSize.megaBytes 2).toBytes

/-- Embeds formatDeviceAndCopyContents (utils.go 190-204): mkfs, mount, copy
the directory in (the CopyDir result is discarded by the source), unmount. -/
def formatDeviceAndCopyContents (folder dev : String)
    (mkfsRes : Except GoError Unit) (mountRes : Except GoError String) :
    Outcome Unit × List Event :=
  match mkfsRes with
  | .error e => (.err e, [.ranMkfs none dev])
  | .ok _ =>
    match mountRes with
    | .error e => (.err e, [.ranMkfs none dev, .acquireFailed (.mnt dev)])
    | .ok mntPoint =>
      (.ok (), [.ranMkfs none dev, .acquired (.mnt dev) mntPoint,
        .copiedDir folder mntPoint, .released (.mnt dev)])

/-- Embeds copyToPart (utils.go 242-251): acquire the partition, format and
populate it, release it on every exit path. -/
def copyToPart (folder : String) (p : Part) (acqRes : Except GoError String)
    (mkfsRes : Except GoError Unit) (mountRes : Except GoError String) :
    Outcome Unit × List Event :=
  match acqRes with
  | .error e => (.err e, [.calledCopyToPart folder p, .acquireFailed (.part p)])
  | .ok dev =>
    let r := formatDeviceAndCopyContents folder dev mkfsRes mountRes
    (r.1, [Event.calledCopyToPart folder p, Event.acquired (.part p) dev] ++ r.2
      ++ [Event.released (.part p)])

/-- Embeds CopyToImgFile (utils.go 229-240). -/
def CopyToImgFile (folder imgfile : String) (loAcq : Except GoError String)
    (mkfsRes : Except GoError Unit) (mountRes : Except GoError String) :
    Outcome Unit × List Event :=
  match loAcq with
  | .error e => (.err e, [.acquireFailed (.lo imgfile)])
  | .ok lod =>
    let r := formatDeviceAndCopyContents folder lod mkfsRes mountRes
    (r.1, [Event.acquired (.lo imgfile) lod] ++ r.2 ++ [Event.released (.lo imgfile)])

/-- The single-volume size expression of utils.go 213-214: Go clears the low
bits with a bitwise AND NOT of SectorSize minus one, which on nonnegative
values equals dividing and re-multiplying by the sector size. -/
def singleVolumeSize (dirSize : Nat) : Nat :=
  (SectorSize + dirSize + dirSize / 10 + ext2Overhead) / SectorSize * SectorSize

/-- Environment for CreateSingleVolume. -/
structure SingleEnv where
  getDirSize : String → Except GoError Nat
  createSparse : Except GoError Unit
  loAcquire : Except GoError String
  mkfs : Except GoError Unit
  mount : Except GoError String

/-- Steps of CreateSingleVolume after the directory measurement (utils.go
212-226), taking the computed volume size and the result of the sector
representability check as arguments. -/
def createSingleVolumeChecked (rootFile folderPath : String) (sizeVolume : Nat)
    (sectorCheck : Except GoError Nat) (env : SingleEnv) : Outcome Unit × List Event :=
  match sectorCheck with
  | .error e => (.err e, [])
  | .ok _ =>
    match createSparseFile rootFile (.bytes sizeVolume) env.createSparse with
    | (Outcome.err e, tr) => (.err e, tr)
    | (_, tr) =>
      let r := CopyToImgFile folderPath rootFile env.loAcquire env.mkfs env.mount
      (r.1, tr ++ r.2)

/-- Embeds CreateSingleVolume (utils.go 206-227). -/
def CreateSingleVolume (rootFile : String) (folder : RawVolume) (env : SingleEnv) :
    Outcome Unit × List Event :=
  match env.getDirSize folder.Path with
  | .error e => (.err e, [])
  | .ok size0 =>
    let sizeVolume := singleVolumeSize size0
    createSingleVolumeChecked rootFile folder.Path sizeVolume
      (ToSectors (.bytes sizeVolume)) env

/-- The drive-size expression shared by CreatePartitionedVolumes (utils.go
270-271) and CreateVolumes (utils.go 336-337): sector alignment of the slack
total by bitwise AND NOT, then the fixed 4 MB disk-level overhead. -/
def driveSize (totalSize : Nat) : Nat :=
  (SectorSize + totalSize + totalSize / 10) / SectorSize * SectorSize
    + (DiskSize.megaBytes 4).toBytes

/-- Environment for the two multi-volume assemblers: per-call results, with the
per-iteration operations indexed by iteration number. -/
structure VolEnv where
  getDirSize : String → Except GoError Nat
  createSparse : Except GoError Unit
  loAcquire : Except GoError String
  makeTable : Except GoError Unit
  makePart : Nat → Except GoError Unit
  listPartsLoop : Nat → Except GoError (List Part)
  listPartsFinal : Except GoError (List Part)
  partAcquire : Nat → Except GoError String
  mkfs : Nat → Except GoError Unit
  mount : Nat → Except GoError String

/-- Environment restricted to the partition-creation loop. -/
structure PartLoopEnv where
  makePart : Nat → Except GoError Unit
  listParts : Nat → Except GoError (List Part)

/-- The partition-creation loop shared by CreateVolumes (utils.go 356-368) and
CreatePartitionedVolumes (utils.go 291-303): request a partition spanning start
to start plus size, re-enumerate, and continue from the committed end offset of
the last enumerated partition.  An empty enumeration makes the source index the
slice at minus one, a runtime panic. -/
def makePartsLoop {α : Type} (env : PartLoopEnv) (dev : String) (sizeOf : α → Nat) :
    List α → Nat → Nat → Outcome Nat × List Event
  | [], start, _ => (.ok start, [])
  | x :: rest, start, i =>
    let e := start + sizeOf x
    let ev1 : List Event := [.madePart "ext2" start e dev]
    match env.makePart i with
    | .error err => (.err err, ev1)
    | .ok _ =>
      match env.listParts i with
      | .error err => (.err err, ev1 ++ [.listedParts dev])
      | .ok curParts =>
        match curParts.getLast? with
        | none => (.panicked, ev1 ++ [.listedParts dev])
        | some last =>
          let r := makePartsLoop env dev sizeOf rest (last.offset + last.size) (i + 1)
          (r.1, ev1 ++ [Event.listedParts dev] ++ r.2)

/-- The final enumeration result as the source sees it: on error the Go slice
is nil, and the source of both multi-volume assemblers leaves that error
unchecked (utils.go 305, 370). -/
def finalParts (env : VolEnv) : List Part :=
  match env.listPartsFinal with
  | .ok ps => ps
  | .error _ => []

/-- The per-volume size computation of CreateVolumes (utils.go 324-335):
explicit nonzero sizes are used as given, zero sizes are derived from the
source directory plus the fixed ext2 overhead. -/
def volumeSizes (gds : String → Except GoError Nat) :
    List RawVolume → Except GoError (List Nat)
  | [] => .ok []
  | v :: rest =>
    if v.Size = 0 then
      match gds v.Path with
      | .error e => .error e
      | .ok cursize =>
        match volumeSizes gds rest with
        | .error e => .error e
        | .ok l => .ok ((cursize + ext2Overhead) :: l)
    else
      match volumeSizes gds rest with
      | .error e => .error e
      | .ok l => .ok (v.Size :: l)

/-- The population loop of CreateVolumes (utils.go 377-380): the copyToPart
result is discarded by the source; indexing past the end of the enumerated
partition slice is a runtime panic. -/
def populateVolumes (env : VolEnv) (parts : List Part) :
    List RawVolume → Nat → Outcome Unit × List Event
  | [], _ => (.ok (), [])
  | v :: rest, i =>
    match parts[i]? with
    | none => (.panicked, [])
    | some p =>
      let c := copyToPart v.Path p (env.partAcquire i) (env.mkfs i) (env.mount i)
      let r := populateVolumes env parts rest (i + 1)
      (r.1, c.2 ++ r.2)

/-- Embeds CreateVolumes (utils.go 317-383): compute per-volume sizes, create
the sparse image, attach it, create the table (the MakeTable result is
discarded, utils.go 354), lay out one partition per volume, re-enumerate, fail
unless the partition count equals the volume count, then populate. -/
def CreateVolumes (imgFile : String) (volumes : List RawVolume) (env : VolEnv) :
    Outcome Unit × List Event :=
  match volumeSizes env.getDirSize volumes with
  | .error e => (.err e, [])
  | .ok sizes =>
    let sizeDrive := driveSize sizes.sum
    match createSparseFile imgFile (.bytes sizeDrive) env.createSparse with
    | (Outcome.err e, tr) => (.err e, tr)
    | (_, tr0) =>
      match env.loAcquire with
      | .error e => (.err e, tr0 ++ [.acquireFailed (.lo imgFile)])
      | .ok lodName =>
        let body : Outcome Unit × List Event :=
          match makePartsLoop ⟨env.makePart, env.listPartsLoop⟩ lodName (fun s => s)
              sizes (DiskSize.megaBytes 2).toBytes 0 with
          | (Outcome.err e, trL) => (.err e, Event.madeTable lodName :: trL)
          | (Outcome.panicked, trL) => (.panicked, Event.madeTable lodName :: trL)
          | (Outcome.ok _, trL) =>
            let parts := finalParts env
            let tr1 := Event.madeTable lodName :: (trL ++ [Event.listedParts lodName])
            if parts.length = volumes.length then
              let r := populateVolumes env parts volumes 0
              (r.1, tr1 ++ r.2)
            else
              (.err ⟨"Not enough parts created!"⟩, tr1)
        (body.1, tr0 ++ [Event.acquired (.lo imgFile) lodName] ++ body.2
          ++ [Event.released (.lo imgFile)])

/-- Go map access with the zero value for a missing key, for the volume map of
CreatePartitionedVolumes (utils.go 309). -/
def lookupVolume (volumes : List (String × RawVolume)) (k : String) : RawVolume :=
  match volumes.lookup k with
  | some v => v
  | none => { Path := "", Size := 0 }

/-- Go map access with the zero value for a missing key, for the sizes map of
CreatePartitionedVolumes (utils.go 292). -/
def lookupSize (sizes : List (String × Nat)) (k : String) : Nat :=
  match sizes.lookup k with
  | some n => n
  | none => 0

/-- The first loop of CreatePartitionedVolumes (utils.go 261-269): measure each
source directory in map-iteration order and record the size (directory size
plus the fixed ext2 overhead; the explicit RawVolume size is never consulted)
under the volume key. -/
def cpvSizes (gds : String → Except GoError Nat) :
    List (String × RawVolume) → Except GoError (List (String × Nat))
  | [] => .ok []
  | (k, v) :: rest =>
    match gds v.Path with
    | .error e => .error e
    | .ok cursize =>
      match cpvSizes gds rest with
      | .error e => .error e
      | .ok l => .ok ((k, cursize + ext2Overhead) :: l)

/-- The population loop of CreatePartitionedVolumes (utils.go 308-312): for the
i-th ordered key, look the volume up in the map and copy it into the i-th
enumerated partition; the copyToPart result is discarded by the source, and
indexing past the end of the partition slice is a runtime panic. -/
def populatePartitioned (env : VolEnv) (volumes : List (String × RawVolume))
    (parts : List Part) : List String → Nat → Outcome Unit × List Event
  | [], _ => (.ok (), [])
  | k :: rest, i =>
    let localDir := (lookupVolume volumes k).Path
    match parts[i]? with
    | none => (.panicked, [])
    | some p =>
      let c := copyToPart localDir p (env.partAcquire i) (env.mkfs i) (env.mount i)
      let r := populatePartitioned env volumes parts rest (i + 1)
      (r.1, c.2 ++ r.2)

/-- Embeds CreatePartitionedVolumes (utils.go 253-315): the volume map is taken
together with its iteration order as an association list; sizes, layout,
population and the returned key list all derive from that one order.  The
final enumeration error is unchecked and there is no partition-count check
before population. -/
def CreatePartitionedVolumes (imgFile : String) (volumes : List (String × RawVolume))
    (env : VolEnv) : Outcome (List String) × List Event :=
  match cpvSizes env.getDirSize volumes with
  | .error e => (.err e, [])
  | .ok sizes =>
    let orderedKeys := volumes.map Prod.fst
    let totalSize := (sizes.map Prod.snd).sum
    let sizeVolume := driveSize totalSize
    match createSparseFile imgFile (.bytes sizeVolume) env.createSparse with
    | (Outcome.err e, tr) => (.err e, tr)
    | (_, tr0) =>
      match env.loAcquire with
      | .error e => (.err e, tr0 ++ [.acquireFailed (.lo imgFile)])
      | .ok lodName =>
        let body : Outcome (List String) × List Event :=
          match makePartsLoop ⟨env.makePart, env.listPartsLoop⟩ lodName
              (lookupSize sizes) orderedKeys (DiskSize.megaBytes 2).toBytes 0 with
          | (Outcome.err e, trL) => (.err e, Event.madeTable lodName :: trL)
          | (Outcome.panicked, trL) => (.panicked, Event.madeTable lodName :: trL)
          | (Outcome.ok _, trL) =>
            let parts := finalParts env
            let tr1 := Event.madeTable lodName :: (trL ++ [Event.listedParts lodName])
            let r := populatePartitioned env volumes parts orderedKeys 0
            match r.1 with
            | Outcome.panicked => (.panicked, tr1 ++ r.2)
            | _ => (.ok orderedKeys, tr1 ++ r.2)
        (body.1, tr0 ++ [Event.acquired (.lo imgFile) lodName] ++ body.2
          ++ [Event.released (.lo imgFile)])

/-- The resource of an acquisition event, if any. -/
def acquiredRes : Event → Option Res
  | .acquired r _ => some r
  | _ => none

/-- Resources recorded as successfully acquired, in order. -/
def acquiredResources (tr : List Event) : List Res := tr.filterMap acquiredRes

/-- The resource of a release event, if any. -/
def releasedRes : Event → Option Res
  | .released r => some r
  | _ => none

/-- Resources recorded as released, in order. -/
def releasedResources (tr : List Event) : List Res := tr.filterMap releasedRes

/-- The extent of a partition-creation request event, if any. -/
def madePartExtent : Event → Option (Nat × Nat)
  | .madePart _ s e _ => some (s, e)
  | _ => none

/-- The partition extents requested over a trace, in order. -/
def madePartExtents (tr : List Event) : List (Nat × Nat) := tr.filterMap madePartExtent

/-- The argument pair of a copyToPart invocation event, if any. -/
def copyToPartCall : Event → Option (String × Part)
  | .calledCopyToPart f p => some (f, p)
  | _ => none

/-- The copyToPart invocations recorded in a trace, in order. -/
def copyToPartCalls (tr : List Event) : List (String × Part) := tr.filterMap copyToPartCall

/-- The size of a sparse-file creation event, if any. -/
def sparseSize : Event → Option Nat
  | .createdSparse _ s => some s
  | _ => none

/-- The sizes handed to sparse-file creation over a trace, in order. -/
def sparseSizes (tr : List Event) : List Nat := tr.filterMap sparseSize

/-- The start offsets the layout loop requests, induced by a committed
partition list: the first request is at the given first-partition offset, and
every later request starts at the committed end (offset plus size) of the
previous committed partition. -/
def requestedStart (committed : List Part) (first : Nat) : Nat → Nat
  | 0 => first
  | i + 1 =>
    match committed[i]? with
    | some p => p.offset + p.size
    | none => 0

/-- The extents the layout loop is expected to request from global iteration j
on, one per remaining item, each spanning the requested start and the
requested start plus the item size. -/
def expectedExtentsFrom {α : Type} (committed : List Part) (first : Nat)
    (sizeOf : α → Nat) : List α → Nat → List (Nat × Nat)
  | [], _ => []
  | x :: rest, j =>
    (requestedStart committed first j, requestedStart committed first j + sizeOf x)
      :: expectedExtentsFrom committed first sizeOf rest (j + 1)

/-- Index-wise pairing of volume source paths with enumerated partitions, as
the population loops are expected to produce it. -/
def pairPaths : List (String × RawVolume) → List Part → List (String × Part)
  | [], _ => []
  | _, [] => []
  | (_, v) :: vs, p :: ps => (v.Path, p) :: pairPaths vs ps

/-- Follows the words of claim C4: the per-volume contribution to the image
size is the explicit size when nonzero, else the directory size plus the fixed
2 MB filesystem overhead. -/
def specVolumeContribution (explicitSize dirSize : Nat) : Nat :=
  if explicitSize = 0 then dirSize + ext2Overhead else explicitSize

/-- Follows the words of claim C4: rounding up to the next whole sector, read
strictly (an already-aligned count advances to the next boundary, which is
what the source arithmetic produces). -/
def specNextSector (n : Nat) : Nat := SectorSize * (n / SectorSize + 1)

/-- Follows the words of claim C4: total contribution plus a 10 percent slack
margin, rounded up to the next whole sector, plus the fixed 4 MB disk-level
overhead. -/
def specImageSize (contributions : List Nat) : Nat :=
  specNextSector (contributions.sum + contributions.sum / 10)
    + (DiskSize.megaBytes 4).toBytes

/-- Concrete environment for the C6 witness: both acquisitions succeed and the
enumeration returns one device-mapper-backed partition. -/
abbrev c6Env : BootEnv :=
  { loAcquire := .ok "/dev/loop3"
    loRelease := .ok ()
    dmAcquire := .ok "/dev/mapper/hda"
    dmRelease := .ok ()
    makeTable := .ok ()
    makePartTillEnd := .ok ()
    listParts := .ok [⟨true, "loop3p1", 2097152, 65011712⟩]
    partAcquire := .ok "/dev/mapper/hda1"
    partRelease := .ok ()
    mkfs := .ok ()
    mount := .ok "/tmp/mnt"
    umount := .ok ()
    grub := ⟨.ok (), .ok (), .ok (), .ok ()⟩
    grubInstall := .ok () }

/-- Concrete environment for the C1 witness: mkfs fails, every earlier step
succeeds. -/
abbrev c1WitnessEnv : BootEnv :=
  { loAcquire := .ok "/dev/loop0"
    loRelease := .ok ()
    dmAcquire := .ok "/dev/mapper/hda"
    dmRelease := .ok ()
    makeTable := .ok ()
    makePartTillEnd := .ok ()
    listParts := .ok [⟨false, "loop0p1", 2097152, 65011712⟩]
    partAcquire := .ok "/dev/loop0p1"
    partRelease := .ok ()
    mkfs := .error ⟨"mkfs failed"⟩
    mount := .ok "/tmp/mnt"
    umount := .ok ()
    grub := ⟨.ok (), .ok (), .ok (), .ok ()⟩
    grubInstall := .ok () }

/-- Concrete environment refuting claim C1 as stated: MakeTable,
MakePartTillEnd and the kernel copy inside PrepareGrub all fail, every step
whose result the source checks succeeds. -/
abbrev c1Env : BootEnv :=
  { loAcquire := .ok "/dev/loop0"
    loRelease := .ok ()
    dmAcquire := .ok "/dev/mapper/hda"
    dmRelease := .ok ()
    makeTable := .error ⟨"mktable failed"⟩
    makePartTillEnd := .error ⟨"mkpart failed"⟩
    listParts := .ok [⟨true, "loop0p1", 2097152, 65011712⟩]
    partAcquire := .ok "/dev/mapper/hda1"
    partRelease := .ok ()
    mkfs := .ok ()
    mount := .ok "/tmp/mnt"
    umount := .ok ()
    grub := ⟨.error ⟨"copy kernel failed"⟩, .ok (), .ok (), .ok ()⟩
    grubInstall := .ok () }

/-- Concrete volume-assembler environment in which the layout loop succeeds
with one partition per request but the final enumeration returns an empty
list. -/
abbrev c2Env : VolEnv :=
  { getDirSize := fun _ => .ok 0
    createSparse := .ok ()
    loAcquire := .ok "/dev/loop1"
    makeTable := .ok ()
    makePart := fun _ => .ok ()
    listPartsLoop := fun _ => .ok [⟨false, "loop1p1", 2097152, 2097152⟩]
    listPartsFinal := .ok []
    partAcquire := fun _ => .ok "/dev/loop1p1"
    mkfs := fun _ => .ok ()
    mount := fun _ => .ok "/tmp/mntv" }

/-- Concrete volume-assembler environment in which the very first in-loop
enumeration returns an empty list. -/
abbrev c9Env : VolEnv :=
  { getDirSize := fun _ => .ok 0
    createSparse := .ok ()
    loAcquire := .ok "/dev/loop1"
    makeTable := .ok ()
    makePart := fun _ => .ok ()
    listPartsLoop := fun _ => .ok []
    listPartsFinal := .error ⟨"parted print failed"⟩
    partAcquire := fun _ => .ok "/dev/loop1p1"
    mkfs := fun _ => .ok ()
    mount := fun _ => .ok "/tmp/mntv" }

/-- Concrete multi-volume environment in which everything succeeds and every
directory measures to zero bytes. -/
abbrev c4Env : VolEnv :=
  { getDirSize := fun _ => .ok 0
    createSparse := .ok ()
    loAcquire := .ok "/dev/loop2"
    makeTable := .ok ()
    makePart := fun _ => .ok ()
    listPartsLoop := fun _ => .ok [⟨false, "loop2p1", 2097152, 2097152⟩]
    listPartsFinal := .ok [⟨false, "loop2p1", 2097152, 2097152⟩]
    partAcquire := fun _ => .ok "/dev/loop2p1"
    mkfs := fun _ => .ok ()
    mount := fun _ => .ok "/tmp/mntp" }

/-- Boot environment whose fields are never reached in the C8 counterexample
run (the sector conversion fails first). -/
abbrev c8BootEnv : BootEnv :=
  { loAcquire := .error ⟨"unused"⟩
    loRelease := .ok ()
    dmAcquire := .error ⟨"unused"⟩
    dmRelease := .ok ()
    makeTable := .ok ()
    makePartTillEnd := .ok ()
    listParts := .ok []
    partAcquire := .error ⟨"unused"⟩
    partRelease := .ok ()
    mkfs := .ok ()
    mount := .error ⟨"unused"⟩
    umount := .ok ()
    grub := ⟨.ok (), .ok (), .ok (), .ok ()⟩
    grubInstall := .ok () }

/-- Environment for the C8 counterexample: sparse creation succeeds. -/
abbrev c8Env : BootImgEnv :=
  { createSparse := .ok ()
    boot := c8BootEnv }

/-- Concrete single-volume environment for the C8 witness. -/
abbrev c8SingleEnv : SingleEnv :=
  { getDirSize := fun _ => .ok 1000
    createSparse := .ok ()
    loAcquire := .ok "/dev/loop4"
    mkfs := .ok ()
    mount := .ok "/tmp/mnts" }

/-- Concrete committed partition table for the C3 witness: the backend snaps
the second partition start up by one sector relative to the request. -/
abbrev c3Committed : List Part :=
  [⟨false, "loop6p1", 2097152, 3145728⟩, ⟨false, "loop6p2", 5243392, 1048576⟩]

/-- Concrete layout-loop environment for the C3 witness: every enumeration
reflects the committed table so far. -/
abbrev c3LoopEnv : PartLoopEnv :=
  { makePart := fun _ => .ok ()
    listParts := fun i => .ok (c3Committed.take (i + 1)) }

/-- Concrete committed partition table refuting claim C3 as stated: the
backend commits the second partition at an offset below its requested start
(a snap-down), while every enumeration still returns exactly the committed
table. -/
abbrev c3SnapCommitted : List Part :=
  [⟨false, "loop7p1", 2097152, 3145728⟩, ⟨false, "loop7p2", 4194304, 2097152⟩]

/-- Layout-loop environment for the C3 counterexample: every post-creation
enumeration returns the non-empty committed table so far. -/
abbrev c3SnapEnv : PartLoopEnv :=
  { makePart := fun _ => .ok ()
    listParts := fun i => .ok (c3SnapCommitted.take (i + 1)) }

/-- Concrete two-volume environment for the C10 witness. -/
abbrev c10Env : VolEnv :=
  { getDirSize := fun _ => .ok 0
    createSparse := .ok ()
    loAcquire := .ok "/dev/loop5"
    makeTable := .ok ()
    makePart := fun _ => .ok ()
    listPartsLoop := fun i =>
      if i = 0 then .ok [⟨false, "q1", 2097152, 2097152⟩]
      else .ok [⟨false, "q1", 2097152, 2097152⟩, ⟨false, "q2", 4194304, 2097152⟩]
    listPartsFinal := .ok [⟨false, "q1", 2097152, 2097152⟩,
      ⟨false, "q2", 4194304, 2097152⟩]
    partAcquire := fun _ => .ok "/dev/loop5p"
    mkfs := fun _ => .ok ()
    mount := fun _ => .ok "/tmp/mntw" }

/-
Helper lemmas about the trace extractors.
-/

theorem acquiredResources_append (a b : List Event) :
    acquiredResources (a ++ b) = acquiredResources a ++ acquiredResources b := by
  simp [acquiredResources]

theorem releasedResources_append (a b : List Event) :
    releasedResources (a ++ b) = releasedResources a ++ releasedResources b := by
  simp [releasedResources]

theorem madePartExtents_append (a b : List Event) :
    madePartExtents (a ++ b) = madePartExtents a ++ madePartExtents b := by
  simp [madePartExtents]

theorem copyToPartCalls_append (a b : List Event) :
    copyToPartCalls (a ++ b) = copyToPartCalls a ++ copyToPartCalls b := by
  simp [copyToPartCalls]

theorem sparseSizes_append (a b : List Event) :
    sparseSizes (a ++ b) = sparseSizes a ++ sparseSizes b := by
  simp [sparseSizes]

theorem prepareGrub_no_resources (folder d kernel c : String) (env : GrubEnv) :
    acquiredResources (PrepareGrub folder d kernel c env).2 = [] ∧
    releasedResources (PrepareGrub folder d kernel c env).2 = [] := by
  obtain ⟨cf, m1, m2, m3⟩ := env
  cases cf <;> cases m1 <;> cases m2 <;> cases m3 <;>
    simp [PrepareGrub, writeBootTemplate, writeDeviceMap, acquiredResources,
      releasedResources, acquiredRes, releasedRes]


theorem bootImagePartitionPhase_release_order (rootDevice prog cmd : String)
    (env : BootEnv) :
    releasedResources (bootImagePartitionPhase rootDevice prog cmd env).2
      = (acquiredResources (bootImagePartitionPhase rootDevice prog cmd env).2).reverse := by
  cases hl : env.listParts with
  | error e =>
    simp [bootImagePartitionPhase, hl, acquiredResources, releasedResources]
  | ok parts =>
    cases parts with
    | nil =>
      simp [bootImagePartitionPhase, hl, acquiredResources, releasedResources]
    | cons p0 ps =>
      cases hpa : env.partAcquire with
      | error e =>
        simp [bootImagePartitionPhase, hl, hpa, acquiredResources, releasedResources,
          acquiredRes, releasedRes]
      | ok bootDevice =>
        cases hmk : env.mkfs with
        | error e =>
          simp [bootImagePartitionPhase, hl, hpa, hmk, acquiredResources,
            releasedResources, acquiredRes, releasedRes]
        | ok u =>
          cases hmt : env.mount with
          | error e =>
            simp [bootImagePartitionPhase, hl, hpa, hmk, hmt, acquiredResources,
              releasedResources, acquiredRes, releasedRes]
          | ok mntPoint =>
            obtain ⟨hga, hgr⟩ := prepareGrub_no_resources mntPoint rootDevice prog cmd env.grub
            have hga2 : List.filterMap acquiredRes
                (PrepareGrub mntPoint rootDevice prog cmd env.grub).2 = [] := hga
            have hgr2 : List.filterMap releasedRes
                (PrepareGrub mntPoint rootDevice prog cmd env.grub).2 = [] := hgr
            cases hgi : env.grubInstall <;>
              simp [bootImagePartitionPhase, hl, hpa, hmk, hmt, hgi, acquiredResources,
                releasedResources, acquiredRes, releasedRes, List.filterMap_append,
                hga2, hgr2]

theorem bootImagePartitionPhase_fst_eq (rd prog cmd : String) (env env' : BootEnv)
    (h1 : env'.listParts = env.listParts) (h2 : env'.partAcquire = env.partAcquire)
    (h3 : env'.mkfs = env.mkfs) (h4 : env'.mount = env.mount)
    (h5 : env'.grubInstall = env.grubInstall) :
    (bootImagePartitionPhase rd prog cmd env').1
      = (bootImagePartitionPhase rd prog cmd env).1 := by
  cases hl : env.listParts with
  | error e => simp [bootImagePartitionPhase, hl, h1, h2, h3, h4, h5]
  | ok parts =>
    cases parts with
    | nil => simp [bootImagePartitionPhase, hl, h1, h2, h3, h4, h5]
    | cons p0 ps =>
      cases hpa : env.partAcquire with
      | error e => simp [bootImagePartitionPhase, hl, hpa, h1, h2, h3, h4, h5]
      | ok bd =>
        cases hmk : env.mkfs with
        | error e => simp [bootImagePartitionPhase, hl, hpa, hmk, h1, h2, h3, h4, h5]
        | ok u =>
          cases hmt : env.mount with
          | error e =>
            simp [bootImagePartitionPhase, hl, hpa, hmk, hmt, h1, h2, h3, h4, h5]
          | ok m =>
            cases hgi : env.grubInstall <;>
              simp [bootImagePartitionPhase, hl, hpa, hmk, hmt, hgi, h1, h2, h3, h4, h5]

theorem createBootImage_fst_eq (rootFile : String) (size : DiskSize)
    (prog cmd : String) (env env' : BootEnv)
    (hlo : env'.loAcquire = env.loAcquire) (hdm : env'.dmAcquire = env.dmAcquire)
    (h1 : env'.listParts = env.listParts) (h2 : env'.partAcquire = env.partAcquire)
    (h3 : env'.mkfs = env.mkfs) (h4 : env'.mount = env.mount)
    (h5 : env'.grubInstall = env.grubInstall) :
    (CreateBootImageOnFile rootFile size prog cmd env').1
      = (CreateBootImageOnFile rootFile size prog cmd env).1 := by
  cases hts : ToSectors size with
  | error e => simp [CreateBootImageOnFile, hts]
  | ok n =>
    cases hloc : env.loAcquire with
    | error e => simp [CreateBootImageOnFile, hts, hlo, hloc]
    | ok l =>
      cases hdmc : env.dmAcquire with
      | error e => simp [CreateBootImageOnFile, hts, hlo, hdm, hloc, hdmc]
      | ok dv =>
        have h := bootImagePartitionPhase_fst_eq dv prog cmd env env' h1 h2 h3 h4 h5
        simp [CreateBootImageOnFile, bootImageAfterAcquire, hts, hlo, hdm, hloc, hdmc, h]

/-- Claim C5: on every exit path of the Boot Image Assembler, resources are
released in strict reverse order of acquisition (mount, partition,
device-mapper root device, loop device; the three resources named by the claim
appear in exactly the claimed relative order), and the outcome of the call is
unchanged under arbitrary outcomes of the release and unmount operations, so a
cleanup failure never replaces or suppresses the step error. -/
theorem boot_release_order (rootFile : String) (size : DiskSize)
    (prog cmd : String) (env : BootEnv) :
    (releasedResources (CreateBootImageOnFile rootFile size prog cmd env).2
      = (acquiredResources (CreateBootImageOnFile rootFile size prog cmd env).2).reverse) ∧
    (∀ a b c d,
      (CreateBootImageOnFile rootFile size prog cmd
        { env with loRelease := a, dmRelease := b, partRelease := c, umount := d }).1
        = (CreateBootImageOnFile rootFile size prog cmd env).1) := by
  constructor
  · cases hts : ToSectors size with
    | error e =>
      simp [CreateBootImageOnFile, hts, acquiredResources, releasedResources]
    | ok n =>
      cases hlo : env.loAcquire with
      | error e =>
        simp [CreateBootImageOnFile, hts, hlo, acquiredResources, releasedResources,
          acquiredRes, releasedRes]
      | ok l =>
        cases hdm : env.dmAcquire with
        | error e =>
          simp [CreateBootImageOnFile, hts, hlo, hdm, acquiredResources,
            releasedResources, acquiredRes, releasedRes]
        | ok d =>
          have h := bootImagePartitionPhase_release_order d prog cmd env
          simp only [acquiredResources, releasedResources] at h
          simp [CreateBootImageOnFile, bootImageAfterAcquire, hts, hlo, hdm,
            acquiredResources, releasedResources, acquiredRes, releasedRes,
            List.filterMap_append, h]
  · intro a b c d
    exact createBootImage_fst_eq rootFile size prog cmd env _ rfl rfl rfl rfl rfl rfl rfl

/-- Claim C7: with the staging steps succeeding, PrepareGrub stages exactly the
kernel copy, the menu file and its grub.conf duplicate rendered from the fixed
template with root drive (hd0,0) and the caller command line, and the device
map consisting of the single line binding (hd0) to the root device node; the
rendered contents are spelled out. -/
theorem grub_staging_contents (folder d kernel c : String) :
    PrepareGrub folder d kernel c ⟨.ok (), .ok (), .ok (), .ok ()⟩ =
      (.ok (), [.copiedFile kernel (folder ++ "/boot/" ++ ProgramName),
        .wroteFile (folder ++ "/boot/grub" ++ "/menu.lst") (GrubTemplate "(hd0,0)" c),
        .wroteFile (folder ++ "/boot/grub" ++ "/grub.conf") (GrubTemplate "(hd0,0)" c),
        .wroteFile (folder ++ "/boot/grub" ++ "/map") (DeviceMapFile d)]) ∧
    GrubTemplate "(hd0,0)" c =
      "default=0\nfallback=1\ntimeout=1\nhiddenmenu\n\ntitle Unik\nroot (hd0,0)\nkernel /boot/program.bin "
        ++ c ++ "\n" ∧
    DeviceMapFile d = "(hd0) " ++ d ++ "\n" := by
  refine ⟨rfl, ?_, rfl⟩
  simp [GrubTemplate]

/-- Claim C6: with the size convertible to sectors and the two outer
acquisitions succeeding, the run creates a partition table on the device
acquired from the device-mapper mapping that was requested under the fixed
name hda over the whole disk, with one primary partition starting at the
fixed 2 MB offset; it fails with the fixed error when enumeration yields no
partitions; and when the first enumerated partition is device-mapper backed,
the partition subsequently acquired carries the device name hda1. -/
theorem boot_partition_layout (rootFile : String) (size : DiskSize)
    (prog cmd : String) (env : BootEnv) (n : Nat) (l d : String)
    (hts : ToSectors size = .ok n) (hlo : env.loAcquire = .ok l)
    (hdm : env.dmAcquire = .ok d) :
    (∃ rest, (CreateBootImageOnFile rootFile size prog cmd env).2 =
      Event.acquired (.lo rootFile) l :: Event.acquired (.dm 0 n l grubDiskName) d ::
      Event.madeTable d :: Event.madePartTillEnd "primary" (DiskSize.megaBytes 2).toBytes d ::
      Event.listedParts d :: rest) ∧
    (env.listParts = .ok [] →
      (CreateBootImageOnFile rootFile size prog cmd env).1 = .err ⟨"No parts created"⟩) ∧
    (∀ p ps b, env.listParts = .ok (p :: ps) → p.isDeviceMapper = true →
      env.partAcquire = .ok b →
      ∃ rest, (CreateBootImageOnFile rootFile size prog cmd env).2 =
        Event.acquired (.lo rootFile) l :: Event.acquired (.dm 0 n l grubDiskName) d ::
        Event.madeTable d :: Event.madePartTillEnd "primary" (DiskSize.megaBytes 2).toBytes d ::
        Event.listedParts d ::
        Event.acquired (.part { p with deviceName := grubDiskName ++ "1" }) b :: rest) := by
  refine ⟨?_, ?_, ?_⟩
  · simp only [CreateBootImageOnFile, bootImageAfterAcquire, hts, hlo, hdm,
      List.cons_append, List.append_assoc, List.nil_append]
    exact ⟨_, rfl⟩
  · intro hl
    simp [CreateBootImageOnFile, bootImageAfterAcquire, bootImagePartitionPhase,
      hts, hlo, hdm, hl]
  · intro p ps b hl hp hpa
    simp only [CreateBootImageOnFile, bootImageAfterAcquire, bootImagePartitionPhase,
      hts, hlo, hdm, hl, hp, hpa, if_true, List.cons_append, List.append_assoc,
      List.nil_append]
    exact ⟨_, rfl⟩

theorem boot_partition_layout_witness :
    ∃ rest, (CreateBootImageOnFile "/tmp/root.img" (DiskSize.megaBytes 64)
      "/tmp/prog" "console=ttyS0" c6Env).2 =
      Event.acquired (.lo "/tmp/root.img") "/dev/loop3" ::
      Event.acquired (.dm 0 131072 "/dev/loop3" grubDiskName) "/dev/mapper/hda" ::
      Event.madeTable "/dev/mapper/hda" ::
      Event.madePartTillEnd "primary" (DiskSize.megaBytes 2).toBytes "/dev/mapper/hda" ::
      Event.listedParts "/dev/mapper/hda" ::
      Event.acquired (.part ⟨true, grubDiskName ++ "1", 2097152, 65011712⟩)
        "/dev/mapper/hda1" :: rest :=
  (boot_partition_layout "/tmp/root.img" (DiskSize.megaBytes 64) "/tmp/prog"
    "console=ttyS0" c6Env 131072 "/dev/loop3" "/dev/mapper/hda" rfl rfl rfl).2.2
    ⟨true, "loop3p1", 2097152, 65011712⟩ [] "/dev/mapper/hda1" rfl rfl rfl

/-- Claim C1, amended: the outcome of the Boot Image Assembler is entirely
independent of the MakeTable, MakePartTillEnd and PrepareGrub outcomes (their
results are discarded by the source), while a failure of any checked step,
namely the sector conversion, the loop attach, the device-mapper mapping, the
partition enumeration, the empty-enumeration check, the partition acquire,
mkfs, mount, and grub-install, aborts the call and is returned unchanged. -/
theorem boot_checked_failures_propagate (rootFile : String) (size : DiskSize)
    (prog cmd : String) (env : BootEnv) :
    (∀ x y g,
      (CreateBootImageOnFile rootFile size prog cmd
        { env with makeTable := x, makePartTillEnd := y, grub := g }).1
        = (CreateBootImageOnFile rootFile size prog cmd env).1) ∧
    (∀ e, ToSectors size = .error e →
      (CreateBootImageOnFile rootFile size prog cmd env).1 = .err e) ∧
    (∀ n e, ToSectors size = .ok n → env.loAcquire = .error e →
      (CreateBootImageOnFile rootFile size prog cmd env).1 = .err e) ∧
    (∀ n l e, ToSectors size = .ok n → env.loAcquire = .ok l →
      env.dmAcquire = .error e →
      (CreateBootImageOnFile rootFile size prog cmd env).1 = .err e) ∧
    (∀ n l d e, ToSectors size = .ok n → env.loAcquire = .ok l →
      env.dmAcquire = .ok d → env.listParts = .error e →
      (CreateBootImageOnFile rootFile size prog cmd env).1 = .err e) ∧
    (∀ n l d, ToSectors size = .ok n → env.loAcquire = .ok l →
      env.dmAcquire = .ok d → env.listParts = .ok [] →
      (CreateBootImageOnFile rootFile size prog cmd env).1 = .err ⟨"No parts created"⟩) ∧
    (∀ n l d p ps e, ToSectors size = .ok n → env.loAcquire = .ok l →
      env.dmAcquire = .ok d → env.listParts = .ok (p :: ps) →
      env.partAcquire = .error e →
      (CreateBootImageOnFile rootFile size prog cmd env).1 = .err e) ∧
    (∀ n l d p ps b e, ToSectors size = .ok n → env.loAcquire = .ok l →
      env.dmAcquire = .ok d → env.listParts = .ok (p :: ps) →
      env.partAcquire = .ok b → env.mkfs = .error e →
      (CreateBootImageOnFile rootFile size prog cmd env).1 = .err e) ∧
    (∀ n l d p ps b e, ToSectors size = .ok n → env.loAcquire = .ok l →
      env.dmAcquire = .ok d → env.listParts = .ok (p :: ps) →
      env.partAcquire = .ok b → env.mkfs = .ok () → env.mount = .error e →
      (CreateBootImageOnFile rootFile size prog cmd env).1 = .err e) ∧
    (∀ n l d p ps b m e, ToSectors size = .ok n → env.loAcquire = .ok l →
      env.dmAcquire = .ok d → env.listParts = .ok (p :: ps) →
      env.partAcquire = .ok b → env.mkfs = .ok () → env.mount = .ok m →
      env.grubInstall = .error e →
      (CreateBootImageOnFile rootFile size prog cmd env).1 = .err e) := by
  refine ⟨?_, ?_, ?_, ?_, ?_, ?_, ?_, ?_, ?_, ?_⟩
  · intro x y g
    exact createBootImage_fst_eq rootFile size prog cmd env _ rfl rfl rfl rfl rfl rfl rfl
  · intro e h1
    simp [CreateBootImageOnFile, h1]
  · intro n e h1 h2
    simp [CreateBootImageOnFile, h1, h2]
  · intro n l e h1 h2 h3
    simp [CreateBootImageOnFile, h1, h2, h3]
  · intro n l d e h1 h2 h3 h4
    simp [CreateBootImageOnFile, bootImageAfterAcquire, bootImagePartitionPhase,
      h1, h2, h3, h4]
  · intro n l d h1 h2 h3 h4
    simp [CreateBootImageOnFile, bootImageAfterAcquire, bootImagePartitionPhase,
      h1, h2, h3, h4]
  · intro n l d p ps e h1 h2 h3 h4 h5
    simp [CreateBootImageOnFile, bootImageAfterAcquire, bootImagePartitionPhase,
      h1, h2, h3, h4, h5]
  · intro n l d p ps b e h1 h2 h3 h4 h5 h6
    simp [CreateBootImageOnFile, bootImageAfterAcquire, bootImagePartitionPhase,
      h1, h2, h3, h4, h5, h6]
  · intro n l d p ps b e h1 h2 h3 h4 h5 h6 h7
    simp [CreateBootImageOnFile, bootImageAfterAcquire, bootImagePartitionPhase,
      h1, h2, h3, h4, h5, h6, h7]
  · intro n l d p ps b m e h1 h2 h3 h4 h5 h6 h7 h8
    simp [CreateBootImageOnFile, bootImageAfterAcquire, bootImagePartitionPhase,
      h1, h2, h3, h4, h5, h6, h7, h8]

theorem boot_checked_failures_propagate_witness :
    (CreateBootImageOnFile "/tmp/root.img" (DiskSize.megaBytes 64) "/tmp/prog"
      "console=ttyS0" c1WitnessEnv).1 = .err ⟨"mkfs failed"⟩ :=
  (boot_checked_failures_propagate "/tmp/root.img" (DiskSize.megaBytes 64)
    "/tmp/prog" "console=ttyS0" c1WitnessEnv).2.2.2.2.2.2.2.1 131072
    "/dev/loop0" "/dev/mapper/hda" ⟨false, "loop0p1", 2097152, 65011712⟩
    [] "/dev/loop0p1" ⟨"mkfs failed"⟩ rfl rfl rfl rfl rfl rfl

/-- Counterexample to claim C1 as stated: in a run whose partition-table
creation steps and whose bootloader-configuration staging all fail, the Boot
Image Assembler still returns success, so these step failures are silently
ignored rather than returned to the caller. -/
theorem boot_ignored_failures_counterexample :
    c1Env.makeTable = .error ⟨"mktable failed"⟩ ∧
    c1Env.makePartTillEnd = .error ⟨"mkpart failed"⟩ ∧
    c1Env.grub.copyFile = .error ⟨"copy kernel failed"⟩ ∧
    (CreateBootImageOnFile "/tmp/root.img" (DiskSize.megaBytes 64) "/tmp/prog"
      "console=ttyS0" c1Env).1 = .ok () :=
  ⟨rfl, rfl, rfl, rfl⟩

theorem makePartsLoop_no_copy {α : Type} (env : PartLoopEnv) (dev : String)
    (sizeOf : α → Nat) :
    ∀ (items : List α) (start i : Nat),
    List.filterMap copyToPartCall (makePartsLoop env dev sizeOf items start i).2 = [] := by
  intro items
  induction items with
  | nil => intro start i; simp [makePartsLoop]
  | cons x rest ih =>
    intro start i
    cases hmp : env.makePart i with
    | error e => simp [makePartsLoop, hmp, copyToPartCall]
    | ok u =>
      cases hlp : env.listParts i with
      | error e => simp [makePartsLoop, hmp, hlp, copyToPartCall]
      | ok cur =>
        cases hgl : cur.getLast? with
        | none => simp [makePartsLoop, hmp, hlp, hgl, copyToPartCall]
        | some last => simp [makePartsLoop, hmp, hlp, hgl, copyToPartCall, ih]

theorem populatePartitioned_panics (env : VolEnv) (volumes : List (String × RawVolume))
    (parts : List Part) :
    ∀ keys, keys ≠ [] → ∀ i, parts.length < i + keys.length →
    (populatePartitioned env volumes parts keys i).1 = .panicked := by
  intro keys
  induction keys with
  | nil => intro h; exact absurd rfl h
  | cons k rest ih =>
    intro hne i hlen
    cases hp : parts[i]? with
    | none => simp [populatePartitioned, hp]
    | some p =>
      have hi : i < parts.length := (List.getElem?_eq_some.1 hp).1
      cases rest with
      | nil =>
        exfalso
        simp at hlen
        omega
      | cons k2 r2 =>
        have hr := ih (by simp) (i + 1) (by simp at hlen ⊢; omega)
        simp only [populatePartitioned, hp] at hr ⊢
        exact hr

theorem cv_mismatch_err (imgFile : String) (volumes : List RawVolume) (env : VolEnv)
    (sizes : List Nat) (lod : String) (st : Nat)
    (h1 : volumeSizes env.getDirSize volumes = .ok sizes)
    (h2 : env.createSparse = .ok ()) (h3 : env.loAcquire = .ok lod)
    (h4 : (makePartsLoop ⟨env.makePart, env.listPartsLoop⟩ lod (fun s => s) sizes
      (DiskSize.megaBytes 2).toBytes 0).1 = .ok st)
    (h5 : (finalParts env).length ≠ volumes.length) :
    (CreateVolumes imgFile volumes env).1 = .err ⟨"Not enough parts created!"⟩ ∧
    copyToPartCalls (CreateVolumes imgFile volumes env).2 = [] := by
  have hnc : List.filterMap copyToPartCall
      (makePartsLoop ⟨env.makePart, env.listPartsLoop⟩ lod (fun s => s) sizes
        (DiskSize.megaBytes 2).toBytes 0).2 = [] :=
    makePartsLoop_no_copy _ _ _ sizes _ 0
  rcases hML : makePartsLoop ⟨env.makePart, env.listPartsLoop⟩ lod (fun s => s) sizes
      (DiskSize.megaBytes 2).toBytes 0 with ⟨o, trL⟩
  rw [hML] at h4 hnc
  simp only at h4
  subst h4
  constructor
  · simp [CreateVolumes, h1, h2, h3, hML, createSparseFile, if_neg h5]
  · simp only at hnc
    simp [CreateVolumes, h1, h2, h3, hML, createSparseFile, if_neg h5,
      copyToPartCalls, copyToPartCall, hnc]

theorem cpv_shortfall_panics (imgFile : String) (pvols : List (String × RawVolume))
    (env : VolEnv) (sizes : List (String × Nat)) (lod : String) (st : Nat)
    (h1 : cpvSizes env.getDirSize pvols = .ok sizes)
    (h2 : env.createSparse = .ok ()) (h3 : env.loAcquire = .ok lod)
    (h4 : (makePartsLoop ⟨env.makePart, env.listPartsLoop⟩ lod (lookupSize sizes)
      (pvols.map Prod.fst) (DiskSize.megaBytes 2).toBytes 0).1 = .ok st)
    (h5 : (finalParts env).length < pvols.length) :
    (CreatePartitionedVolumes imgFile pvols env).1 = .panicked := by
  have hne : pvols.map Prod.fst ≠ [] := by
    cases pvols with
    | nil => simp at h5
    | cons a l => simp
  have hp : (populatePartitioned env pvols (finalParts env) (pvols.map Prod.fst) 0).1
      = .panicked := by
    refine populatePartitioned_panics env pvols (finalParts env) (pvols.map Prod.fst)
      hne 0 ?_
    simpa using h5
  rcases hML : makePartsLoop ⟨env.makePart, env.listPartsLoop⟩ lod (lookupSize sizes)
      (pvols.map Prod.fst) (DiskSize.megaBytes 2).toBytes 0 with ⟨o, trL⟩
  rw [hML] at h4
  simp only at h4
  subst h4
  simp [CreatePartitionedVolumes, h1, h2, h3, hML, createSparseFile, hp]

/-- Claim C2, amended: after the layout loop, CreateVolumes enumerates the
partitions and fails with its fixed error whenever the enumerated count does
not equal the volume count, performing no partition population in that case;
CreatePartitionedVolumes performs no such check at all, and when the final
enumeration yields fewer partitions than volumes (in particular when its error
was swallowed, leaving an empty list) it panics on an out-of-range index
instead of returning an error. -/
theorem volume_count_check (imgFile : String) (volumes : List RawVolume)
    (pvols : List (String × RawVolume)) (env env2 : VolEnv) :
    (∀ sizes lod st, volumeSizes env.getDirSize volumes = .ok sizes →
      env.createSparse = .ok () → env.loAcquire = .ok lod →
      (makePartsLoop ⟨env.makePart, env.listPartsLoop⟩ lod (fun s => s) sizes
        (DiskSize.megaBytes 2).toBytes 0).1 = .ok st →
      (finalParts env).length ≠ volumes.length →
      (CreateVolumes imgFile volumes env).1 = .err ⟨"Not enough parts created!"⟩ ∧
      copyToPartCalls (CreateVolumes imgFile volumes env).2 = []) ∧
    (∀ sizes lod st, cpvSizes env2.getDirSize pvols = .ok sizes →
      env2.createSparse = .ok () → env2.loAcquire = .ok lod →
      (makePartsLoop ⟨env2.makePart, env2.listPartsLoop⟩ lod (lookupSize sizes)
        (pvols.map Prod.fst) (DiskSize.megaBytes 2).toBytes 0).1 = .ok st →
      (finalParts env2).length < pvols.length →
      (CreatePartitionedVolumes imgFile pvols env2).1 = .panicked) := by
  constructor
  · intro sizes lod st h1 h2 h3 h4 h5
    exact cv_mismatch_err imgFile volumes env sizes lod st h1 h2 h3 h4 h5
  · intro sizes lod st h1 h2 h3 h4 h5
    exact cpv_shortfall_panics imgFile pvols env2 sizes lod st h1 h2 h3 h4 h5

theorem volume_count_check_witness :
    ((CreateVolumes "/tmp/vols.img" [⟨"/data", 0⟩] c2Env).1
        = .err ⟨"Not enough parts created!"⟩ ∧
      copyToPartCalls (CreateVolumes "/tmp/vols.img" [⟨"/data", 0⟩] c2Env).2 = []) ∧
    (CreatePartitionedVolumes "/tmp/vols.img" [("vol1", ⟨"/data", 0⟩)] c2Env).1
      = .panicked :=
  ⟨(volume_count_check "/tmp/vols.img" [⟨"/data", 0⟩] [("vol1", ⟨"/data", 0⟩)]
      c2Env c2Env).1 [2097152] "/dev/loop1" 4194304 rfl rfl rfl rfl (by decide),
    (volume_count_check "/tmp/vols.img" [⟨"/data", 0⟩] [("vol1", ⟨"/data", 0⟩)]
      c2Env c2Env).2 [("vol1", 2097152)] "/dev/loop1" 4194304 rfl rfl rfl rfl
      (by decide)⟩

/-- Counterexample to claim C2 as stated: CreatePartitionedVolumes, run with
one volume while the final enumeration returns an empty list, does not fail
with an error on the count mismatch; it panics on an out-of-range index. -/
theorem cpv_missing_count_check_counterexample :
    (finalParts c2Env).length = 0 ∧
    [("vol1", (⟨"/data", 0⟩ : RawVolume))].length = 1 ∧
    (CreatePartitionedVolumes "/tmp/vol.img" [("vol1", ⟨"/data", 0⟩)] c2Env).1
      = .panicked :=
  ⟨rfl, rfl, rfl⟩

/-- Claim C9: an empty enumeration inside the partition-creation loop makes
the loop index the empty list (the embedded index returns none) and panic
rather than return an error; and in CreatePartitionedVolumes, a final
enumeration that errors (leaving a nil slice) or returns fewer partitions
than volumes makes population panic on an out-of-range index rather than
return an error. -/
theorem enumeration_shortfall_panics :
    (∀ (α : Type) (env : PartLoopEnv) (dev : String) (sizeOf : α → Nat)
      (x : α) (rest : List α) (start i : Nat),
      env.makePart i = .ok () → env.listParts i = .ok [] →
      (makePartsLoop env dev sizeOf (x :: rest) start i).1 = .panicked) ∧
    (∀ (env : VolEnv) (volumes : List (String × RawVolume)) (parts : List Part)
      (keys : List String), keys ≠ [] → ∀ i, parts.length < i + keys.length →
      (populatePartitioned env volumes parts keys i).1 = .panicked) ∧
    (∀ (imgFile : String) (pvols : List (String × RawVolume)) (env : VolEnv)
      (sizes : List (String × Nat)) (lod : String) (st : Nat),
      cpvSizes env.getDirSize pvols = .ok sizes →
      env.createSparse = .ok () → env.loAcquire = .ok lod →
      (makePartsLoop ⟨env.makePart, env.listPartsLoop⟩ lod (lookupSize sizes)
        (pvols.map Prod.fst) (DiskSize.megaBytes 2).toBytes 0).1 = .ok st →
      (finalParts env).length < pvols.length →
      (CreatePartitionedVolumes imgFile pvols env).1 = .panicked) := by
  refine ⟨?_, ?_, ?_⟩
  · intro α env dev sizeOf x rest start i h1 h2
    simp [makePartsLoop, h1, h2]
  · exact populatePartitioned_panics
  · intro imgFile pvols env sizes lod st h1 h2 h3 h4 h5
    exact cpv_shortfall_panics imgFile pvols env sizes lod st h1 h2 h3 h4 h5

theorem enumeration_shortfall_panics_witness :
    (makePartsLoop ⟨c9Env.makePart, c9Env.listPartsLoop⟩ "/dev/loop1" (fun s => s)
      [2097152] 2097152 0).1 = .panicked ∧
    (populatePartitioned c9Env [("vol1", ⟨"/data", 0⟩)] [] ["vol1"] 0).1 = .panicked :=
  ⟨enumeration_shortfall_panics.1 Nat ⟨c9Env.makePart, c9Env.listPartsLoop⟩
      "/dev/loop1" (fun s => s) 2097152 [] 2097152 0 rfl rfl,
    enumeration_shortfall_panics.2.1 c9Env [("vol1", ⟨"/data", 0⟩)] [] ["vol1"]
      (by decide) 0 (by decide)⟩


theorem singleVolumeSize_mod (ds : Nat) : singleVolumeSize ds % SectorSize = 0 := by
  simp [singleVolumeSize, SectorSize, Nat.mul_mod_left]

theorem singleVolumeSize_ge (ds : Nat) :
    ds + ds / 10 + ext2Overhead ≤ singleVolumeSize ds := by
  simp only [singleVolumeSize, ext2Overhead, DiskSize.toBytes, SectorSize]
  omega

theorem driveSize_mod (t : Nat) : driveSize t % SectorSize = 0 := by
  simp only [driveSize, SectorSize, DiskSize.toBytes]
  omega

theorem driveSize_ge (t : Nat) : t + t / 10 ≤ driveSize t := by
  simp only [driveSize, SectorSize, DiskSize.toBytes]
  omega

theorem driveSize_spec (t : Nat) :
    driveSize t = specNextSector (t + t / 10) + (DiskSize.megaBytes 4).toBytes := by
  simp only [driveSize, specNextSector, SectorSize, DiskSize.toBytes]
  omega

theorem bootWithSize_sparse_head (rootFile prog cmd : String) (size : DiskSize)
    (env : BootImgEnv) :
    ∃ rest, (CreateBootImageWithSize rootFile prog cmd size env).2
      = Event.createdSparse rootFile size.toBytes :: rest := by
  cases hcs : env.createSparse with
  | error e =>
    simp only [CreateBootImageWithSize, createSparseFile, hcs]
    exact ⟨_, rfl⟩
  | ok u =>
    simp only [CreateBootImageWithSize, createSparseFile, hcs, List.cons_append,
      List.nil_append]
    exact ⟨_, rfl⟩

theorem singleVolume_sparse_head (rootFile : String) (folder : RawVolume)
    (env : SingleEnv) (ds : Nat) (h : env.getDirSize folder.Path = .ok ds) :
    ∃ rest, (CreateSingleVolume rootFile folder env).2
      = Event.createdSparse rootFile (singleVolumeSize ds) :: rest := by
  have hmod : singleVolumeSize ds % SectorSize = 0 := singleVolumeSize_mod ds
  simp only [CreateSingleVolume, h]
  cases hts : ToSectors (.bytes (singleVolumeSize ds)) with
  | error e =>
    exfalso
    simp [ToSectors, DiskSize.toBytes, hmod] at hts
  | ok u =>
    cases hcs : env.createSparse with
    | error e =>
      simp only [createSingleVolumeChecked, createSparseFile, hcs]
      exact ⟨_, rfl⟩
    | ok v =>
      simp only [createSingleVolumeChecked, createSparseFile, hcs, List.cons_append,
        List.nil_append]
      exact ⟨_, rfl⟩

theorem createVolumes_sparse_head (imgFile : String) (volumes : List RawVolume)
    (env : VolEnv) (sizes : List Nat)
    (h : volumeSizes env.getDirSize volumes = .ok sizes) :
    ∃ rest, (CreateVolumes imgFile volumes env).2
      = Event.createdSparse imgFile (driveSize sizes.sum) :: rest := by
  cases hcs : env.createSparse with
  | error e =>
    simp only [CreateVolumes, h, createSparseFile, hcs]
    exact ⟨_, rfl⟩
  | ok u =>
    cases hlo : env.loAcquire with
    | error e =>
      simp only [CreateVolumes, h, createSparseFile, hcs, hlo, List.cons_append,
        List.nil_append]
      exact ⟨_, rfl⟩
    | ok lod =>
      simp only [CreateVolumes, h, createSparseFile, hcs, hlo, List.cons_append,
        List.nil_append, List.append_assoc]
      exact ⟨_, rfl⟩

theorem cpv_sparse_head (imgFile : String) (pvols : List (String × RawVolume))
    (env : VolEnv) (sizes : List (String × Nat))
    (h : cpvSizes env.getDirSize pvols = .ok sizes) :
    ∃ rest, (CreatePartitionedVolumes imgFile pvols env).2
      = Event.createdSparse imgFile (driveSize (sizes.map Prod.snd).sum) :: rest := by
  cases hcs : env.createSparse with
  | error e =>
    simp only [CreatePartitionedVolumes, h, createSparseFile, hcs]
    exact ⟨_, rfl⟩
  | ok u =>
    cases hlo : env.loAcquire with
    | error e =>
      simp only [CreatePartitionedVolumes, h, createSparseFile, hcs, hlo,
        List.cons_append, List.nil_append]
      exact ⟨_, rfl⟩
    | ok lod =>
      simp only [CreatePartitionedVolumes, h, createSparseFile, hcs, hlo,
        List.cons_append, List.nil_append, List.append_assoc]
      exact ⟨_, rfl⟩

/-- Claim C8, amended: the three volume assemblers hand createSparseFile a size
that is a whole multiple of the sector size and at least the computed space
requirement; CreateBootImageWithSize, however, hands createSparseFile the
caller byte size completely unmodified, with no upward alignment. -/
theorem sparse_sizes_aligned :
    (∀ (rootFile prog cmd : String) (size : DiskSize) (env : BootImgEnv),
      ∃ rest, (CreateBootImageWithSize rootFile prog cmd size env).2
        = Event.createdSparse rootFile size.toBytes :: rest) ∧
    (∀ (rootFile : String) (folder : RawVolume) (env : SingleEnv) (ds : Nat),
      env.getDirSize folder.Path = .ok ds →
      (∃ rest, (CreateSingleVolume rootFile folder env).2
        = Event.createdSparse rootFile (singleVolumeSize ds) :: rest) ∧
      singleVolumeSize ds % SectorSize = 0 ∧
      ds + ds / 10 + ext2Overhead ≤ singleVolumeSize ds) ∧
    (∀ (imgFile : String) (volumes : List RawVolume) (env : VolEnv) (sizes : List Nat),
      volumeSizes env.getDirSize volumes = .ok sizes →
      (∃ rest, (CreateVolumes imgFile volumes env).2
        = Event.createdSparse imgFile (driveSize sizes.sum) :: rest) ∧
      driveSize sizes.sum % SectorSize = 0 ∧
      sizes.sum + sizes.sum / 10 ≤ driveSize sizes.sum) ∧
    (∀ (imgFile : String) (pvols : List (String × RawVolume)) (env : VolEnv)
      (sizes : List (String × Nat)),
      cpvSizes env.getDirSize pvols = .ok sizes →
      (∃ rest, (CreatePartitionedVolumes imgFile pvols env).2
        = Event.createdSparse imgFile (driveSize (sizes.map Prod.snd).sum) :: rest) ∧
      driveSize (sizes.map Prod.snd).sum % SectorSize = 0 ∧
      (sizes.map Prod.snd).sum + (sizes.map Prod.snd).sum / 10
        ≤ driveSize (sizes.map Prod.snd).sum) := by
  refine ⟨bootWithSize_sparse_head, ?_, ?_, ?_⟩
  · intro rootFile folder env ds h
    exact ⟨singleVolume_sparse_head rootFile folder env ds h,
      singleVolumeSize_mod ds, singleVolumeSize_ge ds⟩
  · intro imgFile volumes env sizes h
    exact ⟨createVolumes_sparse_head imgFile volumes env sizes h,
      driveSize_mod _, driveSize_ge _⟩
  · intro imgFile pvols env sizes h
    exact ⟨cpv_sparse_head imgFile pvols env sizes h,
      driveSize_mod _, driveSize_ge _⟩

theorem sparse_sizes_aligned_witness :
    (∃ rest, (CreateSingleVolume "/tmp/v.img" ⟨"/data", 0⟩ c8SingleEnv).2
      = Event.createdSparse "/tmp/v.img" (singleVolumeSize 1000) :: rest) ∧
    singleVolumeSize 1000 % SectorSize = 0 ∧
    1000 + 1000 / 10 + ext2Overhead ≤ singleVolumeSize 1000 :=
  sparse_sizes_aligned.2.1 "/tmp/v.img" ⟨"/data", 0⟩ c8SingleEnv 1000 rfl

/-- Counterexample to claim C8 as stated: CreateBootImageWithSize called with a
513-byte size hands exactly 513 bytes to createSparseFile, which is not a
multiple of the sector size; no upward alignment happens before allocation
(the call fails only afterwards, in the sector conversion, with the sparse
file already created). -/
theorem bootImageWithSize_unaligned_counterexample :
    sparseSizes (CreateBootImageWithSize "/tmp/root.img" "/tmp/prog" "console=ttyS0"
      (.bytes 513) c8Env).2 = [513] ∧
    513 % SectorSize ≠ 0 ∧
    (CreateBootImageWithSize "/tmp/root.img" "/tmp/prog" "console=ttyS0"
      (.bytes 513) c8Env).1 = .err ⟨"size not a multiple of sector size"⟩ :=
  ⟨rfl, by decide, rfl⟩

theorem volumeSizes_spec (dsf : String → Nat) (env : VolEnv)
    (henv : ∀ s, env.getDirSize s = .ok (dsf s)) :
    ∀ volumes : List RawVolume,
    volumeSizes env.getDirSize volumes
      = .ok (volumes.map fun v => specVolumeContribution v.Size (dsf v.Path)) := by
  intro volumes
  induction volumes with
  | nil => simp [volumeSizes]
  | cons v rest ih =>
    by_cases hz : v.Size = 0 <;>
      simp [volumeSizes, specVolumeContribution, henv, ih, hz]

theorem cpvSizes_spec (dsf : String → Nat) (env : VolEnv)
    (henv : ∀ s, env.getDirSize s = .ok (dsf s)) :
    ∀ pvols : List (String × RawVolume),
    cpvSizes env.getDirSize pvols
      = .ok (pvols.map fun kv => (kv.1, dsf kv.2.Path + ext2Overhead)) := by
  intro pvols
  induction pvols with
  | nil => simp [cpvSizes]
  | cons kv rest ih => simp [cpvSizes, henv, ih]

/-- Claim C4, amended: CreateVolumes sizes each volume per the claim (explicit
nonzero size, else directory size plus 2 MB), but CreatePartitionedVolumes
never consults the explicit size and always charges directory size plus 2 MB;
for both, the allocated sparse size equals the total contribution plus 10
percent slack, rounded up to the strictly next sector boundary, plus the 4 MB
disk overhead. -/
theorem image_size_formula (dsf : String → Nat) (imgFile : String)
    (volumes : List RawVolume) (pvols : List (String × RawVolume))
    (env env2 : VolEnv)
    (henv : ∀ s, env.getDirSize s = .ok (dsf s))
    (henv2 : ∀ s, env2.getDirSize s = .ok (dsf s)) :
    (volumeSizes env.getDirSize volumes
      = .ok (volumes.map fun v => specVolumeContribution v.Size (dsf v.Path))) ∧
    (∀ t, driveSize t = specNextSector (t + t / 10) + (DiskSize.megaBytes 4).toBytes) ∧
    (∃ rest, (CreateVolumes imgFile volumes env).2
      = Event.createdSparse imgFile
        (specImageSize (volumes.map fun v => specVolumeContribution v.Size (dsf v.Path)))
          :: rest) ∧
    (cpvSizes env2.getDirSize pvols
      = .ok (pvols.map fun kv => (kv.1, dsf kv.2.Path + ext2Overhead))) ∧
    (∃ rest, (CreatePartitionedVolumes imgFile pvols env2).2
      = Event.createdSparse imgFile
        (specImageSize (pvols.map fun kv => dsf kv.2.Path + ext2Overhead)) :: rest) := by
  have h1 := volumeSizes_spec dsf env henv volumes
  have h2 := cpvSizes_spec dsf env2 henv2 pvols
  have hspec : ∀ L : List Nat, specImageSize L = driveSize L.sum := by
    intro L
    rw [driveSize_spec, specImageSize]
  refine ⟨h1, driveSize_spec, ?_, h2, ?_⟩
  · rw [hspec]
    exact createVolumes_sparse_head imgFile volumes env _ h1
  · have hmap : ((pvols.map fun kv => (kv.1, dsf kv.2.Path + ext2Overhead)).map
        Prod.snd) = pvols.map fun kv => dsf kv.2.Path + ext2Overhead := by
      simp [List.map_map]
    have hh := cpv_sparse_head imgFile pvols env2 _ h2
    rw [hmap] at hh
    rw [hspec]
    exact hh

theorem image_size_formula_witness :
    ∃ rest, (CreatePartitionedVolumes "/tmp/img" [("vol1", ⟨"/data", 1048576⟩)] c4Env).2
      = Event.createdSparse "/tmp/img"
        (specImageSize ([("vol1", (⟨"/data", 1048576⟩ : RawVolume))].map
          fun kv => (fun _ => 0 : String → Nat) kv.2.Path + ext2Overhead)) :: rest :=
  (image_size_formula (fun _ => 0) "/tmp/img" [] [("vol1", ⟨"/data", 1048576⟩)]
    c4Env c4Env (fun _ => rfl) (fun _ => rfl)).2.2.2.2

/-- Counterexample to claim C4 as stated: CreatePartitionedVolumes, given one
volume with explicit size 1 MB over a source directory measuring zero bytes,
allocates the size derived from the directory measurement plus the 2 MB
overhead (6501376 bytes after slack, alignment and disk overhead), not the
size the claim computes from the explicit 1 MB contribution (5347840 bytes). -/
theorem cpv_explicit_size_ignored_counterexample :
    sparseSizes (CreatePartitionedVolumes "/tmp/img" [("vol1", ⟨"/data", 1048576⟩)]
      c4Env).2 = [6501376] ∧
    specImageSize [specVolumeContribution 1048576 0] = 5347840 ∧
    (6501376 : Nat) ≠ 5347840 :=
  ⟨rfl, rfl, by decide⟩


theorem makePartsLoop_layout {α : Type} (env : PartLoopEnv) (dev : String)
    (sizeOf : α → Nat) (committed : List Part) (first : Nat) :
    ∀ (rest : List α) (j : Nat),
    committed.length = j + rest.length →
    (∀ i, i < committed.length → env.makePart i = .ok ()) →
    (∀ i, i < committed.length → env.listParts i = .ok (committed.take (i + 1))) →
    (makePartsLoop env dev sizeOf rest (requestedStart committed first j) j).1
        = .ok (requestedStart committed first (j + rest.length)) ∧
    madePartExtents (makePartsLoop env dev sizeOf rest
        (requestedStart committed first j) j).2
      = expectedExtentsFrom committed first sizeOf rest j := by
  intro rest
  induction rest with
  | nil =>
    intro j hlen hmk hlp
    simp [makePartsLoop, madePartExtents, expectedExtentsFrom]
  | cons x rs ih =>
    intro j hlen hmk hlp
    have hlen' : committed.length = (j + 1) + rs.length := by
      simp only [List.length_cons] at hlen
      omega
    have hj : j < committed.length := by omega
    have hmkj := hmk j hj
    have hlpj := hlp j hj
    have hcj : committed[j]? = some committed[j] := List.getElem?_eq_getElem hj
    have hlast : (committed.take (j + 1)).getLast? = some committed[j] := by
      rw [List.getLast?_eq_getElem?]
      have hmin : (committed.take (j + 1)).length = j + 1 := by
        simp [List.length_take]
        omega
      rw [hmin]
      simp [List.getElem?_take, Nat.lt_succ_self]
    have hnext : committed[j].offset + committed[j].size
        = requestedStart committed first (j + 1) := by
      simp [requestedStart, hcj]
    have IH := ih (j + 1) hlen' hmk hlp
    have IH2 : List.filterMap madePartExtent (makePartsLoop env dev sizeOf rs
        (requestedStart committed first (j + 1)) (j + 1)).2
        = expectedExtentsFrom committed first sizeOf rs (j + 1) := IH.2
    constructor
    · simp only [makePartsLoop, hmkj, hlpj, hlast, hnext]
      have harith : j + (x :: rs).length = (j + 1) + rs.length := by
        simp only [List.length_cons]
        omega
      rw [harith]
      exact IH.1
    · simp only [makePartsLoop, hmkj, hlpj, hlast, hnext]
      simp [madePartExtents, madePartExtent, expectedExtentsFrom, IH2]

/-- Claim C3, amended: when every post-creation enumeration reflects the
committed table (the table grows by one partition per request), the layout
loop succeeds, each requested extent starts at the committed end of the
previously enumerated last partition (the first at the fixed initial offset),
and the requested start of partition i plus one equals the committed offset
plus size of partition i, never the requested end; provided additionally that
the backend commits every partition at or after its requested start — the
proviso the counterexample shows is necessary — the committed partitions are
non-overlapping with monotonically increasing offsets. -/
theorem layout_monotonic {α : Type} (env : PartLoopEnv) (dev : String)
    (sizeOf : α → Nat) (items : List α) (committed : List Part) (first : Nat)
    (hlen : committed.length = items.length)
    (hmk : ∀ i, i < committed.length → env.makePart i = .ok ())
    (hlp : ∀ i, i < committed.length → env.listParts i = .ok (committed.take (i + 1)))
    (hsnap : ∀ i p, committed[i]? = some p →
      requestedStart committed first i ≤ p.offset) :
    ((makePartsLoop env dev sizeOf items first 0).1
        = .ok (requestedStart committed first items.length)) ∧
    (madePartExtents (makePartsLoop env dev sizeOf items first 0).2
        = expectedExtentsFrom committed first sizeOf items 0) ∧
    (∀ i p, committed[i]? = some p →
      requestedStart committed first (i + 1) = p.offset + p.size) ∧
    (∀ i p q, committed[i]? = some p → committed[i + 1]? = some q →
      p.offset + p.size ≤ q.offset) := by
  have hmain := makePartsLoop_layout env dev sizeOf committed first items 0
    (by simpa using hlen) hmk hlp
  refine ⟨?_, ?_, ?_, ?_⟩
  · simpa using hmain.1
  · simpa using hmain.2
  · intro i p hp
    simp [requestedStart, hp]
  · intro i p q hp hq
    have h1 := hsnap (i + 1) q hq
    have h2 : requestedStart committed first (i + 1) = p.offset + p.size := by
      simp [requestedStart, hp]
    rw [h2] at h1
    exact h1

theorem layout_monotonic_witness :
    ((makePartsLoop c3LoopEnv "/dev/loop6" (fun s : Nat => s) [3145728, 1048576]
        2097152 0).1
      = .ok (requestedStart c3Committed 2097152 [3145728, 1048576].length)) ∧
    (madePartExtents (makePartsLoop c3LoopEnv "/dev/loop6" (fun s : Nat => s)
        [3145728, 1048576] 2097152 0).2
      = expectedExtentsFrom c3Committed 2097152 (fun s : Nat => s) [3145728, 1048576] 0) ∧
    (∀ i p, c3Committed[i]? = some p →
      requestedStart c3Committed 2097152 (i + 1) = p.offset + p.size) ∧
    (∀ i p q, c3Committed[i]? = some p → c3Committed[i + 1]? = some q →
      p.offset + p.size ≤ q.offset) :=
  layout_monotonic c3LoopEnv "/dev/loop6" (fun s : Nat => s) [3145728, 1048576]
    c3Committed 2097152 rfl (fun _ _ => rfl) (fun _ _ => rfl)
    (by
      intro i p hp
      have hlt : i < 2 := by
        by_contra hc
        push_neg at hc
        rw [List.getElem?_eq_none (by simpa using hc)] at hp
        cases hp
      interval_cases i
      · have hpe : (⟨false, "loop6p1", 2097152, 3145728⟩ : Part) = p :=
          Option.some.inj hp
        subst hpe
        decide
      · have hpe : (⟨false, "loop6p2", 5243392, 1048576⟩ : Part) = p :=
          Option.some.inj hp
        subst hpe
        decide)

/-- Counterexample to claim C3 as stated: in this run every post-creation
enumeration returns a non-empty list that is exactly the committed table, and
the loop does request each next partition at the committed end offset of the
last enumerated partition (the second requested extent starts at 5242880, the
committed end of the first partition), yet the backend commits the second
partition at offset 4194304, below its requested start, so the committed
partitions overlap: offset 0 plus size 0 exceeds offset 1.  The claim's
stated side condition therefore does not suffice for its non-overlap
consequence. -/
theorem layout_snap_down_counterexample :
    c3SnapEnv.listParts 0 = .ok [⟨false, "loop7p1", 2097152, 3145728⟩] ∧
    c3SnapEnv.listParts 1 = .ok c3SnapCommitted ∧
    (makePartsLoop c3SnapEnv "/dev/loop7" (fun s : Nat => s) [3145728, 2097152]
      2097152 0).1 = .ok 6291456 ∧
    madePartExtents (makePartsLoop c3SnapEnv "/dev/loop7" (fun s : Nat => s)
        [3145728, 2097152] 2097152 0).2
      = [(2097152, 5242880), (5242880, 7340032)] ∧
    c3SnapCommitted[0]? = some ⟨false, "loop7p1", 2097152, 3145728⟩ ∧
    c3SnapCommitted[1]? = some ⟨false, "loop7p2", 4194304, 2097152⟩ ∧
    ¬(2097152 + 3145728 ≤ 4194304) :=
  ⟨rfl, rfl, rfl, rfl, rfl, rfl, by decide⟩


theorem cpvSizes_keys (gds : String → Except GoError Nat) :
    ∀ (pvols : List (String × RawVolume)) (sizes : List (String × Nat)),
    cpvSizes gds pvols = .ok sizes → sizes.map Prod.fst = pvols.map Prod.fst := by
  intro pvols
  induction pvols with
  | nil =>
    intro sizes h
    simp [cpvSizes] at h
    subst h
    simp
  | cons kv rest ih =>
    intro sizes h
    obtain ⟨k, v⟩ := kv
    cases hg : gds v.Path with
    | error e => simp [cpvSizes, hg] at h
    | ok c =>
      cases hr : cpvSizes gds rest with
      | error e => simp [cpvSizes, hg, hr] at h
      | ok l =>
        simp [cpvSizes, hg, hr] at h
        subst h
        simp [ih l hr]

theorem lookup_nodup {β : Type} : ∀ (l : List (String × β)),
    (l.map Prod.fst).Nodup →
    ∀ {k : String} {v : β}, (k, v) ∈ l → l.lookup k = some v := by
  intro l
  induction l with
  | nil =>
    intro _ k v h
    cases h
  | cons kv rest ih =>
    intro hn k v hmem
    obtain ⟨k0, v0⟩ := kv
    rw [List.map_cons] at hn
    obtain ⟨hk0, hn2⟩ := List.nodup_cons.1 hn
    rcases List.mem_cons.1 hmem with hEq | hmem2
    · rw [Prod.mk.injEq] at hEq
      obtain ⟨he1, he2⟩ := hEq
      subst he1
      subst he2
      simp [List.lookup]
    · have hkne : k ≠ k0 := by
        intro hc
        apply hk0
        rw [← hc]
        exact List.mem_map.mpr ⟨(k, v), hmem2, rfl⟩
      have hb : (k == k0) = false := beq_eq_false_iff_ne.mpr hkne
      simp only [List.lookup, hb]
      exact ih hn2 hmem2

theorem lookupVolume_self (volumes : List (String × RawVolume))
    (hn : (volumes.map Prod.fst).Nodup) {k : String} {v : RawVolume}
    (hmem : (k, v) ∈ volumes) : lookupVolume volumes k = v := by
  simp [lookupVolume, lookup_nodup volumes hn hmem]

theorem map_lookupSize : ∀ (sizes : List (String × Nat)),
    (sizes.map Prod.fst).Nodup →
    (sizes.map Prod.fst).map (lookupSize sizes) = sizes.map Prod.snd := by
  intro sizes
  induction sizes with
  | nil =>
    intro h
    simp
  | cons kv rest ih =>
    intro hn
    obtain ⟨k, n⟩ := kv
    simp only [List.map_cons] at hn ⊢
    obtain ⟨hk, hn2⟩ := List.nodup_cons.1 hn
    congr 1
    · simp [lookupSize, List.lookup]
    · have hpoint : ∀ a ∈ rest.map Prod.fst,
          lookupSize ((k, n) :: rest) a = lookupSize rest a := by
        intro a ha
        have hne : a ≠ k := by
          intro hEq
          exact hk (hEq ▸ ha)
        have hb : (a == k) = false := beq_eq_false_iff_ne.mpr hne
        simp [lookupSize, List.lookup, hb]
      rw [List.map_congr_left hpoint, ih hn2]

theorem makePartsLoop_extent_sizes {α : Type} (env : PartLoopEnv) (dev : String)
    (sizeOf : α → Nat) :
    ∀ (items : List α) (start i st : Nat) (trL : List Event),
    makePartsLoop env dev sizeOf items start i = (.ok st, trL) →
    (madePartExtents trL).map (fun se => se.2 - se.1) = items.map sizeOf := by
  intro items
  induction items with
  | nil =>
    intro start i st trL heq
    simp only [makePartsLoop, Prod.mk.injEq] at heq
    obtain ⟨h1, h2⟩ := heq
    subst h2
    simp [madePartExtents]
  | cons x rs ih =>
    intro start i st trL heq
    cases hmp : env.makePart i with
    | error e => simp [makePartsLoop, hmp] at heq
    | ok u =>
      cases hlp : env.listParts i with
      | error e => simp [makePartsLoop, hmp, hlp] at heq
      | ok cur =>
        cases hgl : cur.getLast? with
        | none => simp [makePartsLoop, hmp, hlp, hgl] at heq
        | some last =>
          rcases hr : makePartsLoop env dev sizeOf rs (last.offset + last.size) (i + 1)
            with ⟨o, tr2⟩
          simp only [makePartsLoop, hmp, hlp, hgl, hr, Prod.mk.injEq] at heq
          obtain ⟨ho, htr⟩ := heq
          subst htr
          subst ho
          have hih := ih (last.offset + last.size) (i + 1) st tr2 hr
          have hih2 : (List.filterMap madePartExtent tr2).map (fun se => se.2 - se.1)
              = rs.map sizeOf := hih
          simp [madePartExtents, madePartExtent, List.filterMap_append, hih2]

theorem copyToPart_calls (folder : String) (p : Part) (a : Except GoError String)
    (m : Except GoError Unit) (mn : Except GoError String) :
    copyToPartCalls (copyToPart folder p a m mn).2 = [(folder, p)] ∧
    madePartExtents (copyToPart folder p a m mn).2 = [] := by
  cases a <;> cases m <;> cases mn <;>
    simp [copyToPart, formatDeviceAndCopyContents, copyToPartCalls, copyToPartCall,
      madePartExtents, madePartExtent]

theorem populatePartitioned_ok (env : VolEnv) (volumes : List (String × RawVolume))
    (parts : List Part) :
    ∀ (vs : List (String × RawVolume)) (i : Nat),
    (∀ (j : Nat) (k : String) (v : RawVolume), vs[j]? = some (k, v) →
      lookupVolume volumes k = v) →
    i + vs.length ≤ parts.length →
    (populatePartitioned env volumes parts (vs.map Prod.fst) i).1 = .ok () ∧
    copyToPartCalls (populatePartitioned env volumes parts (vs.map Prod.fst) i).2
      = pairPaths vs (parts.drop i) ∧
    madePartExtents (populatePartitioned env volumes parts (vs.map Prod.fst) i).2
      = [] := by
  intro vs
  induction vs with
  | nil =>
    intro i hlook hlen
    simp [populatePartitioned, copyToPartCalls, madePartExtents, pairPaths]
  | cons kv rest ih =>
    intro i hlook hlen
    obtain ⟨k, v⟩ := kv
    have hi : i < parts.length := by
      simp only [List.length_cons] at hlen
      omega
    have hp : parts[i]? = some parts[i] := List.getElem?_eq_getElem hi
    have hlk : lookupVolume volumes k = v := hlook 0 k v (by simp)
    have hdrop : parts.drop i = parts[i] :: parts.drop (i + 1) :=
      List.drop_eq_getElem_cons hi
    have hih := ih (i + 1)
      (fun j k2 v2 hj => hlook (j + 1) k2 v2 (by simpa using hj))
      (by simp only [List.length_cons] at hlen ⊢; omega)
    obtain ⟨hcp, hme⟩ := copyToPart_calls v.Path parts[i] (env.partAcquire i)
      (env.mkfs i) (env.mount i)
    have hcp2 : List.filterMap copyToPartCall (copyToPart v.Path parts[i]
        (env.partAcquire i) (env.mkfs i) (env.mount i)).2 = [(v.Path, parts[i])] := hcp
    have hme2 : List.filterMap madePartExtent (copyToPart v.Path parts[i]
        (env.partAcquire i) (env.mkfs i) (env.mount i)).2 = [] := hme
    have hihc : List.filterMap copyToPartCall (populatePartitioned env volumes parts
        (rest.map Prod.fst) (i + 1)).2 = pairPaths rest (parts.drop (i + 1)) := hih.2.1
    have hihe : List.filterMap madePartExtent (populatePartitioned env volumes parts
        (rest.map Prod.fst) (i + 1)).2 = [] := hih.2.2
    refine ⟨?_, ?_, ?_⟩
    · simp only [List.map_cons, populatePartitioned, hp, hlk]
      exact hih.1
    · simp only [List.map_cons, populatePartitioned, hp, hlk]
      rw [hdrop]
      simp only [pairPaths, copyToPartCalls]
      rw [List.filterMap_append, hcp2, hihc]
      rfl
    · simp only [List.map_cons, populatePartitioned, hp, hlk]
      simp only [madePartExtents]
      rw [List.filterMap_append, hme2, hihe]
      rfl

/-- Claim C10: CreatePartitionedVolumes consults the volume map through one
single key ordering, the one built while iterating the map: the i-th layout
request has exactly the size recorded for the i-th key, population pairs the
i-th volume source path (looked up by the i-th key) with the i-th enumerated
partition, and the returned key list is that same ordering. -/
theorem cpv_single_ordering (imgFile : String) (volumes : List (String × RawVolume))
    (env : VolEnv) (sizes : List (String × Nat)) (lod : String) (st : Nat)
    (trL : List Event)
    (hnd : (volumes.map Prod.fst).Nodup)
    (h1 : cpvSizes env.getDirSize volumes = .ok sizes)
    (h2 : env.createSparse = .ok ()) (h3 : env.loAcquire = .ok lod)
    (h4 : makePartsLoop ⟨env.makePart, env.listPartsLoop⟩ lod (lookupSize sizes)
      (volumes.map Prod.fst) (DiskSize.megaBytes 2).toBytes 0 = (.ok st, trL))
    (h5 : volumes.length ≤ (finalParts env).length) :
    (CreatePartitionedVolumes imgFile volumes env).1 = .ok (volumes.map Prod.fst) ∧
    (madePartExtents trL).map (fun se => se.2 - se.1) = sizes.map Prod.snd ∧
    sizes.map Prod.fst = volumes.map Prod.fst ∧
    copyToPartCalls (CreatePartitionedVolumes imgFile volumes env).2
      = pairPaths volumes (finalParts env) ∧
    madePartExtents (CreatePartitionedVolumes imgFile volumes env).2
      = madePartExtents trL := by
  have hkeys : sizes.map Prod.fst = volumes.map Prod.fst :=
    cpvSizes_keys env.getDirSize volumes sizes h1
  have hnd2 : (sizes.map Prod.fst).Nodup := by
    rw [hkeys]
    exact hnd
  have hlookups : ∀ (j : Nat) (k : String) (v : RawVolume),
      volumes[j]? = some (k, v) → lookupVolume volumes k = v := by
    intro j k v hj
    exact lookupVolume_self volumes hnd (List.getElem?_mem hj)
  have hpop := populatePartitioned_ok env volumes (finalParts env) volumes 0 hlookups
    (by simpa using h5)
  have hpop1 := hpop.1
  have hpopc : List.filterMap copyToPartCall (populatePartitioned env volumes
      (finalParts env) (volumes.map Prod.fst) 0).2
      = pairPaths volumes ((finalParts env).drop 0) := hpop.2.1
  have hpope : List.filterMap madePartExtent (populatePartitioned env volumes
      (finalParts env) (volumes.map Prod.fst) 0).2 = [] := hpop.2.2
  have hnc : List.filterMap copyToPartCall trL = [] := by
    have hx := makePartsLoop_no_copy ⟨env.makePart, env.listPartsLoop⟩ lod
      (lookupSize sizes) (volumes.map Prod.fst) (DiskSize.megaBytes 2).toBytes 0
    rw [h4] at hx
    exact hx
  refine ⟨?_, ?_, hkeys, ?_, ?_⟩
  · simp [CreatePartitionedVolumes, h1, h2, h3, h4, createSparseFile, hpop1]
  · have hms := makePartsLoop_extent_sizes ⟨env.makePart, env.listPartsLoop⟩ lod
      (lookupSize sizes) (volumes.map Prod.fst) (DiskSize.megaBytes 2).toBytes 0 st trL h4
    rw [← hkeys] at hms
    rw [hms, map_lookupSize sizes hnd2]
  · simp [CreatePartitionedVolumes, h1, h2, h3, h4, createSparseFile, hpop1,
      copyToPartCalls, copyToPartCall, List.filterMap_append, hnc, hpopc]
  · simp [CreatePartitionedVolumes, h1, h2, h3, h4, createSparseFile, hpop1,
      madePartExtents, madePartExtent, List.filterMap_append, hpope, hnc]

theorem cpv_single_ordering_witness :
    (CreatePartitionedVolumes "/tmp/w.img" [("a", ⟨"/va", 0⟩), ("b", ⟨"/vb", 0⟩)]
        c10Env).1
      = .ok (([("a", (⟨"/va", 0⟩ : RawVolume)), ("b", ⟨"/vb", 0⟩)]).map Prod.fst) ∧
    (madePartExtents [Event.madePart "ext2" 2097152 4194304 "/dev/loop5",
        Event.listedParts "/dev/loop5",
        Event.madePart "ext2" 4194304 6291456 "/dev/loop5",
        Event.listedParts "/dev/loop5"]).map (fun se => se.2 - se.1)
      = ([("a", 2097152), ("b", 2097152)] : List (String × Nat)).map Prod.snd ∧
    ([("a", 2097152), ("b", 2097152)] : List (String × Nat)).map Prod.fst
      = ([("a", (⟨"/va", 0⟩ : RawVolume)), ("b", ⟨"/vb", 0⟩)]).map Prod.fst ∧
    copyToPartCalls (CreatePartitionedVolumes "/tmp/w.img"
        [("a", ⟨"/va", 0⟩), ("b", ⟨"/vb", 0⟩)] c10Env).2
      = pairPaths [("a", ⟨"/va", 0⟩), ("b", ⟨"/vb", 0⟩)] (finalParts c10Env) ∧
    madePartExtents (CreatePartitionedVolumes "/tmp/w.img"
        [("a", ⟨"/va", 0⟩), ("b", ⟨"/vb", 0⟩)] c10Env).2
      = madePartExtents [Event.madePart "ext2" 2097152 4194304 "/dev/loop5",
        Event.listedParts "/dev/loop5",
        Event.madePart "ext2" 4194304 6291456 "/dev/loop5",
        Event.listedParts "/dev/loop5"] :=
  cpv_single_ordering "/tmp/w.img" [("a", ⟨"/va", 0⟩), ("b", ⟨"/vb", 0⟩)] c10Env
    [("a", 2097152), ("b", 2097152)] "/dev/loop5" 6291456
    [Event.madePart "ext2" 2097152 4194304 "/dev/loop5",
      Event.listedParts "/dev/loop5",
      Event.madePart "ext2" 4194304 6291456 "/dev/loop5",
      Event.listedParts "/dev/loop5"]
    (by decide) rfl rfl rfl rfl (by decide)

end Unik
